import Mathlib

/-! Servicing lifecycle controller of the ironic provisioner.

A shallow embedding of `pkg/provisioner/ironic/servicing.go`: the step planner
`buildServiceSteps`, the start and abort procedures, the abort decider
`shouldAbortServicing` and the reconciliation pass `Service`.

Go methods of the receiver `p` become functions of a record `ironicProvisioner`
that holds the receiver's fields and the collaborators the file calls but does
not define.  Every call that leaves the file towards a collaborator is recorded,
in order, in a list of `RemoteCall`s returned next to the Go return values.
Structured logging (`p.log.Info`) has no effect on any returned value and is
left out.
-/

namespace Ironic

/-! ## Data model -/

/-- Go `error`: an error value is represented by its message (`err.Error()`);
a nil error is `none` of `Option Error`. -/
abbrev Error := String

/-- Go `time.Duration`, an integer count of nanoseconds. -/
abbrev Duration := Int

/-- Go `map[string]string`, kept as an association list. -/
abbrev StringMap := List (String × String)

/-- Modelled from the spec: the declaration of `metal3api.FirmwareConfig` is not
in the source file; the spec calls it an optional profile of vendor-neutral hints
for a small fixed set of named options.  The code only passes it on. -/
structure FirmwareConfig where
  VirtualizationEnabled : Option Bool
  SimultaneousMultithreadingEnabled : Option Bool
  SriovEnabled : Option Bool
deriving DecidableEq, Repr

/-- Modelled from the spec: a firmware-component update descriptor
(`metal3api.FirmwareUpdate`), whose declaration is not in the source file. -/
structure FirmwareUpdate where
  Component : String
  URL : String
deriving DecidableEq, Repr

/-- The fields of `provisioner.ServicingData` that the source file reads; the
values of the target settings (Go `intstr.IntOrString`) are kept as strings. -/
structure ServicingData where
  FirmwareConfig : Option FirmwareConfig
  ActualFirmwareSettings : StringMap
  TargetFirmwareSettings : StringMap
  TargetFirmwareComponents : List FirmwareUpdate
  HasFirmwareSettingsSpec : Bool
  HasFirmwareComponentsSpec : Bool
  ServicingTriggeredBySettings : Bool
  ServicingTriggeredByComponents : Bool
deriving DecidableEq, Repr

/-- Interface names of `nodes.ServiceStep` (`nodes.InterfaceBIOS` and so on are
string constants of the client library). -/
abbrev StepInterface := String

/-- Constant `nodes.InterfaceBIOS`. -/
def InterfaceBIOS : StepInterface := "bios"

/-- Constant `nodes.InterfaceFirmware`. -/
def InterfaceFirmware : StepInterface := "firmware"

/-- Record `nodes.ServiceStep`; `Args` is the Go `map[string]interface{}`, whose
only values in this file are lists of string maps. -/
structure ServiceStep where
  Interface : StepInterface
  Step : String
  Args : List (String × List StringMap)
deriving DecidableEq, Repr

/-- Target of a provision-state change (`nodes.TargetProvisionState`, a string). -/
abbrev TargetProvisionState := String

/-- Constant `nodes.TargetService`. -/
def TargetService : TargetProvisionState := "service"

/-- Constant `nodes.TargetAbort`. -/
def TargetAbort : TargetProvisionState := "abort"

/-- The fields of `nodes.ProvisionStateOpts` that the source file sets; a field
left out of a Go literal is its zero value (the empty list here). -/
structure ProvisionStateOpts where
  Target : TargetProvisionState
  ServiceSteps : List ServiceStep
deriving DecidableEq, Repr

/-- Provisioning phase reported by the remote system (`nodes.ProvisionState`, a
string). -/
abbrev ProvisionState := String

/-- Constant `nodes.ServiceFail`. -/
def ServiceFail : ProvisionState := "service failed"

/-- Constant `nodes.Active`. -/
def Active : ProvisionState := "active"

/-- Constant `nodes.Servicing`. -/
def Servicing : ProvisionState := "servicing"

/-- Constant `nodes.ServiceWait`. -/
def ServiceWait : ProvisionState := "service wait"

/-- The fields of `nodes.Node` that the source file reads: the remote machine
state fetched afresh in every pass. -/
structure Node where
  ProvisionState : ProvisionState
  Maintenance : Bool
  LastError : String
  ServiceStep : StringMap
deriving DecidableEq, Repr

/-- Record `provisioner.Result`: the source file reads `Dirty` and
`ErrorMessage`; `RequeueAfter` carries the delay of a continuing outcome. -/
structure Result where
  Dirty : Bool
  RequeueAfter : Duration
  ErrorMessage : String
deriving DecidableEq, Repr

/-- Modelled from the spec: `operationComplete` is not in the source file; the
outcome Complete is the clean result with no error. -/
def operationComplete : Result × Option Error :=
  ({ Dirty := false, RequeueAfter := 0, ErrorMessage := "" }, none)

/-- Modelled from the spec: `operationContinuing` is not in the source file; the
outcome Continuing(requeue-delay) is a dirty result carrying the delay. -/
def operationContinuing (delay : Duration) : Result × Option Error :=
  ({ Dirty := true, RequeueAfter := delay, ErrorMessage := "" }, none)

/-- Modelled from the spec: `operationFailed` is not in the source file; the
outcome Failed(message) carries the message and no error. -/
def operationFailed (message : String) : Result × Option Error :=
  ({ Dirty := false, RequeueAfter := 0, ErrorMessage := message }, none)

/-- Modelled from the spec: `transientError` is not in the source file; a
transient error is returned as the error value next to an empty result, not as a
Failed outcome. -/
def transientError (err : Error) : Result × Option Error :=
  ({ Dirty := false, RequeueAfter := 0, ErrorMessage := "" }, some err)

/-- Capability query consumed by the entry guard (`p.availableFeatures`): the
method `HasServicing()` and the field `MaxVersion`, both taken as given. -/
structure AvailableFeatures where
  MaxVersion : Int
  HasServicing : Bool
deriving DecidableEq, Repr

/-- Out-of-band access handle (`bmc.AccessDetails`): the source file uses its
settings translation only. -/
structure AccessDetails where
  BuildBIOSSettings : Option FirmwareConfig → Except Error (List StringMap)

/-- The receiver `p` with the collaborators that the source file calls and does
not define.  Each is a parameter: every theorem holds for all their behaviours. -/
structure ironicProvisioner where
  availableFeatures : AvailableFeatures
  provisionRequeueDelay : Duration
  bmcAccess : Except Error AccessDetails
  getNode : Except Error Node
  getNewFirmwareSettings : StringMap → StringMap → List StringMap → List StringMap
  getFirmwareComponentsUpdates : List FirmwareUpdate → List StringMap
  tryChangeNodeProvisionState : Node → ProvisionStateOpts → Bool × Result × Option Error
  setMaintenanceFlag : Node → Bool → String → Result × Option Error

/-- A call made to a collaborator during a pass. -/
inductive RemoteCall where
  | bmcAccess
  | getNode
  | buildBIOSSettings (firmwareConfig : Option FirmwareConfig)
  | setMaintenanceFlag (node : Node) (value : Bool) (reason : String)
  | changeNodeProvisionState (node : Node) (opts : ProvisionStateOpts)
deriving DecidableEq, Repr

/-- State-mutating requests: maintenance-flag changes and transition requests. -/
def RemoteCall.isMutation : RemoteCall → Bool
  | .setMaintenanceFlag _ _ _ => true
  | .changeNodeProvisionState _ _ => true
  | _ => false

/-- Transition requests. -/
def RemoteCall.isTransition : RemoteCall → Bool
  | .changeNodeProvisionState _ _ => true
  | _ => false

/-- Return values `(result, started, err)` of `Service` and `abortServicing`,
with the calls made. -/
structure Outcome where
  result : Result
  started : Bool
  err : Option Error
  calls : List RemoteCall
deriving DecidableEq, Repr

/-! ## The functions of `servicing.go` -/

/-- Function `buildServiceSteps` (lines 11-54). -/
def buildServiceSteps (p : ironicProvisioner) (bmcAccess : AccessDetails)
    (data : ServicingData) : Except Error (List ServiceStep) × List RemoteCall :=
  let firmwareConfig : Option FirmwareConfig :=
    match data.FirmwareConfig with
    | some c => some c
    | none => none
  let calls := [RemoteCall.buildBIOSSettings firmwareConfig]
  match bmcAccess.BuildBIOSSettings firmwareConfig with
  | .error err => (.error err, calls)
  | .ok fwConfigSettings =>
    let serviceSteps : List ServiceStep := []
    let newSettings := p.getNewFirmwareSettings data.ActualFirmwareSettings
      data.TargetFirmwareSettings fwConfigSettings
    let serviceSteps :=
      if newSettings.length ≠ 0 then
        serviceSteps ++ [{ Interface := InterfaceBIOS, Step := "apply_configuration",
                           Args := [("settings", newSettings)] }]
      else serviceSteps
    let newUpdates := p.getFirmwareComponentsUpdates data.TargetFirmwareComponents
    let serviceSteps :=
      if newUpdates.length ≠ 0 then
        serviceSteps ++ [{ Interface := InterfaceFirmware, Step := "update",
                           Args := [("settings", newUpdates)] }]
      else serviceSteps
    (.ok serviceSteps, calls)

/-- Function `startServicing` (lines 56-77); the components are
`(success, result, err)` and the calls made. -/
def startServicing (p : ironicProvisioner) (bmcAccess : AccessDetails) (ironicNode : Node)
    (data : ServicingData) : Bool × Result × Option Error × List RemoteCall :=
  match buildServiceSteps p bmcAccess data with
  | (.error err, calls) =>
    let (result, err) := operationFailed err
    (false, result, err, calls)
  | (.ok serviceSteps, calls) =>
    if serviceSteps.length ≠ 0 then
      let opts : ProvisionStateOpts := { Target := TargetService, ServiceSteps := serviceSteps }
      let (success, result, err) := p.tryChangeNodeProvisionState ironicNode opts
      (success, result, err, calls ++ [RemoteCall.changeNodeProvisionState ironicNode opts])
    else
      let (result, err) := operationComplete
      (false, result, err, calls)

/-- Function `abortServicing` (lines 79-95). -/
def abortServicing (p : ironicProvisioner) (ironicNode : Node) : Outcome :=
  if ironicNode.Maintenance then
    let (result, err) := p.setMaintenanceFlag ironicNode false ""
    { result := result, started := false, err := err,
      calls := [RemoteCall.setMaintenanceFlag ironicNode false ""] }
  else
    let opts : ProvisionStateOpts := { Target := TargetAbort, ServiceSteps := [] }
    let (started, result, err) := p.tryChangeNodeProvisionState ironicNode opts
    { result := result, started := started, err := err,
      calls := [RemoteCall.changeNodeProvisionState ironicNode opts] }

/-- Function `shouldAbortServicing` (lines 97-116); the receiver is not used. -/
def shouldAbortServicing (data : ServicingData) : Bool :=
  if data.ServicingTriggeredBySettings && data.ServicingTriggeredByComponents then
    !data.HasFirmwareSettingsSpec && !data.HasFirmwareComponentsSpec
  else if data.ServicingTriggeredBySettings then
    !data.HasFirmwareSettingsSpec
  else if data.ServicingTriggeredByComponents then
    !data.HasFirmwareComponentsSpec
  else
    false

/-- Body of `case nodes.Active` of the switch in `Service` (lines 176-187 and the
final return), entered directly or by `fallthrough` from `case nodes.ServiceFail`
with `unprepared` set; `pre` holds the calls made before the switch. -/
def serviceActive (p : ironicProvisioner) (bmcAccess : AccessDetails) (ironicNode : Node)
    (data : ServicingData) (unprepared : Bool) (pre : List RemoteCall) : Outcome :=
  if unprepared then
    let (started, result, err, calls) := startServicing p bmcAccess ironicNode data
    if started || result.Dirty || result.ErrorMessage ≠ "" || err ≠ none then
      { result := result, started := started, err := err, calls := pre ++ calls }
    else
      let started := true
      let (result, err) := operationComplete
      { result := result, started := started, err := err, calls := pre ++ calls }
  else
    let (result, err) := operationComplete
    { result := result, started := false, err := err, calls := pre }

/-- The switch on the provision state in `Service` (lines 151-203). -/
def serviceDispatch (p : ironicProvisioner) (bmcAccess : AccessDetails) (ironicNode : Node)
    (data : ServicingData) (unprepared restartOnFailure : Bool) (pre : List RemoteCall) :
    Outcome :=
  if ironicNode.ProvisionState = ServiceFail then
    if shouldAbortServicing data then
      let o := abortServicing p ironicNode
      { o with calls := pre ++ o.calls }
    else if !restartOnFailure then
      let (result, err) := operationFailed ironicNode.LastError
      { result := result, started := false, err := err, calls := pre }
    else if ironicNode.Maintenance then
      let (result, err) := p.setMaintenanceFlag ironicNode false ""
      { result := result, started := false, err := err,
        calls := pre ++ [RemoteCall.setMaintenanceFlag ironicNode false ""] }
    else
      serviceActive p bmcAccess ironicNode data true pre
  else if ironicNode.ProvisionState = Active then
    serviceActive p bmcAccess ironicNode data unprepared pre
  else if ironicNode.ProvisionState = Servicing ∨ ironicNode.ProvisionState = ServiceWait then
    if shouldAbortServicing data then
      let o := abortServicing p ironicNode
      { o with calls := pre ++ o.calls }
    else
      let (result, err) := operationContinuing p.provisionRequeueDelay
      { result := result, started := false, err := err, calls := pre }
  else
    let (result, err) :=
      transientError ("have unexpected ironic node state " ++ ironicNode.ProvisionState)
    { result := result, started := false, err := err, calls := pre }

/-- Function `Service` (lines 118-204). -/
def Service (p : ironicProvisioner) (data : ServicingData)
    (unprepared restartOnFailure : Bool) : Outcome :=
  if !p.availableFeatures.HasServicing then
    let (result, err) := operationFailed
      ("servicing not supported: requires API version 1.87, available is 1." ++
        toString p.availableFeatures.MaxVersion)
    { result := result, started := false, err := err, calls := [] }
  else
    match p.bmcAccess with
    | .error err =>
      let (result, err) := transientError err
      { result := result, started := false, err := err, calls := [RemoteCall.bmcAccess] }
    | .ok bmcAccess =>
      match p.getNode with
      | .error err =>
        let (result, err) := transientError err
        { result := result, started := false, err := err,
          calls := [RemoteCall.bmcAccess, RemoteCall.getNode] }
      | .ok ironicNode =>
        match buildServiceSteps p bmcAccess data with
        | (.error err, calls) =>
          let (result, err) := operationFailed err
          { result := result, started := false, err := err,
            calls := [RemoteCall.bmcAccess, RemoteCall.getNode] ++ calls }
        | (.ok _, calls) =>
          serviceDispatch p bmcAccess ironicNode data unprepared restartOnFailure
            ([RemoteCall.bmcAccess, RemoteCall.getNode] ++ calls)

/-- The calls made before the phase dispatch. -/
def readCalls (data : ServicingData) : List RemoteCall :=
  [RemoteCall.bmcAccess, RemoteCall.getNode, RemoteCall.buildBIOSSettings data.FirmwareConfig]

/-- Calls of the settings translation. -/
def RemoteCall.isTranslation : RemoteCall → Bool
  | .buildBIOSSettings _ => true
  | _ => false

/-- The same request, about the node `node`: the node passed along with a
maintenance-flag change or a transition request is replaced, reads are kept. -/
def RemoteCall.withNode (node : Node) : RemoteCall → RemoteCall
  | .setMaintenanceFlag _ value reason => .setMaintenanceFlag node value reason
  | .changeNodeProvisionState _ opts => .changeNodeProvisionState node opts
  | c => c

/-- The BIOS step built by `buildServiceSteps` (lines 28-34) around the list
`newSettings`. -/
def biosStep (newSettings : List StringMap) : ServiceStep :=
  { Interface := InterfaceBIOS, Step := "apply_configuration",
    Args := [("settings", newSettings)] }

/-- The firmware step built by `buildServiceSteps` (lines 43-49) around the list
`newUpdates`. -/
def firmwareStep (newUpdates : List StringMap) : ServiceStep :=
  { Interface := InterfaceFirmware, Step := "update",
    Args := [("settings", newUpdates)] }

/-! ## Sample collaborators

Concrete, executable collaborators on which the theorems below are instantiated. -/

/-- An access handle whose translation yields one setting per enabled hint and
fails on no input. -/
def sampleAccess : AccessDetails :=
  { BuildBIOSSettings := fun cfg =>
      match cfg with
      | none => .ok []
      | some c =>
        .ok (if c.SriovEnabled = some true then [[("name", "Sriov"), ("value", "Enabled")]]
             else []) }

/-- A delta helper: the translated profile settings, and the target pairs that
the actual settings do not hold. -/
def sampleNewSettings (actual target : StringMap) (fw : List StringMap) : List StringMap :=
  fw ++ (target.filter (fun kv => !actual.contains kv)).map
    (fun kv => [("name", kv.1), ("value", kv.2)])

/-- A delta helper: one map per requested component update. -/
def sampleUpdates (components : List FirmwareUpdate) : List StringMap :=
  components.map (fun c => [("component", c.Component), ("url", c.URL)])

/-- A provisioner whose remote system supports servicing, reports `node`, answers
every transition request with `(accepted, Continuing, nil)` and every
maintenance-flag change with a continuing outcome. -/
def sampleProvisioner (node : Node) (accepted : Bool) : ironicProvisioner :=
  { availableFeatures := { MaxVersion := 87, HasServicing := true }
    provisionRequeueDelay := 10000000000
    bmcAccess := .ok sampleAccess
    getNode := .ok node
    getNewFirmwareSettings := sampleNewSettings
    getFirmwareComponentsUpdates := sampleUpdates
    tryChangeNodeProvisionState := fun _ _ => (accepted, (operationContinuing 10000000000).1, none)
    setMaintenanceFlag := fun _ _ _ => operationContinuing 10000000000 }

/-- A provisioner whose remote system does not support servicing. -/
def oldProvisioner (node : Node) : ironicProvisioner :=
  { sampleProvisioner node true with
    availableFeatures := { MaxVersion := 72, HasServicing := false } }

/-- A remote node in the given phase. -/
def sampleNode (state : ProvisionState) (maintenance : Bool) : Node :=
  { ProvisionState := state, Maintenance := maintenance,
    LastError := "firmware update failed", ServiceStep := [] }

/-- Desired data with no settings, no profile and no component update, and the
given four flags. -/
def emptyData (hasSettings hasComponents bySettings byComponents : Bool) : ServicingData :=
  { FirmwareConfig := none, ActualFirmwareSettings := [], TargetFirmwareSettings := [],
    TargetFirmwareComponents := [],
    HasFirmwareSettingsSpec := hasSettings, HasFirmwareComponentsSpec := hasComponents,
    ServicingTriggeredBySettings := bySettings, ServicingTriggeredByComponents := byComponents }

/-- Desired data with one target setting that the actual settings do not hold. -/
def settingData (hasSettings hasComponents bySettings byComponents : Bool) : ServicingData :=
  { emptyData hasSettings hasComponents bySettings byComponents with
    ActualFirmwareSettings := [("ProcVirtualization", "Disabled")]
    TargetFirmwareSettings := [("ProcVirtualization", "Enabled")] }

/-- Desired data with two target settings of which only the first differs from
the actual settings. -/
def twoSettingData : ServicingData :=
  { emptyData true false true false with
    ActualFirmwareSettings := [("ProcVirtualization", "Disabled"), ("BootMode", "Uefi")]
    TargetFirmwareSettings := [("ProcVirtualization", "Enabled"), ("BootMode", "Uefi")] }

/-- Desired data with one differing setting and one component update. -/
def bothData : ServicingData :=
  { settingData true true true true with
    TargetFirmwareComponents := [{ Component := "bmc", URL := "https://example.org/bmc.bin" }] }

/-- Modelled from the spec: one name/value pair of a settings map as an entry of
the settings list that a BIOS step carries. -/
def settingEntry (kv : String × String) : StringMap :=
  [("name", kv.1), ("value", kv.2)]

/-- Modelled from the spec: the full target settings mapping, the translated
profile settings plus the explicit target settings. -/
def targetSettingsMapping (target : StringMap) (fwConfigSettings : List StringMap) :
    List StringMap :=
  fwConfigSettings ++ target.map settingEntry

/-- Modelled from the spec: `getNewFirmwareSettings` is not in the source file.
The target settings (translated profile settings plus explicit target settings)
are compared against the actual settings; if any name/value pair differs or is
newly required, the result is the full target settings mapping, and if no
difference exists it is empty. -/
def getNewFirmwareSettings (actual target : StringMap) (fwConfigSettings : List StringMap) :
    List StringMap :=
  if (targetSettingsMapping target fwConfigSettings).any
      (fun m => !(actual.map settingEntry).contains m) then
    targetSettingsMapping target fwConfigSettings
  else []

/-- The sample provisioner with the helper `getNewFirmwareSettings` as the spec
describes it. -/
def specProvisioner (node : Node) (accepted : Bool) : ironicProvisioner :=
  { sampleProvisioner node accepted with getNewFirmwareSettings := getNewFirmwareSettings }

/-- An access handle of a driver without BIOS support: its translation fails on
every input, the absent profile included. -/
def strictAccess : AccessDetails :=
  { BuildBIOSSettings := fun _ => .error "firmware settings are not supported" }

/-- The sample provisioner with the handle `strictAccess`. -/
def strictProvisioner (node : Node) : ironicProvisioner :=
  { sampleProvisioner node true with bmcAccess := .ok strictAccess }

/-! ## Shared lemmas -/

/-- The calls made by planning: one settings translation, whatever its result. -/
theorem buildServiceSteps_calls (p : ironicProvisioner) (acc : AccessDetails)
    (data : ServicingData) :
    (buildServiceSteps p acc data).2 = [RemoteCall.buildBIOSSettings data.FirmwareConfig] := by
  unfold buildServiceSteps
  cases hcfg : data.FirmwareConfig <;> simp only [] <;> split <;> rfl

/-- When the guard passes and the handle, the node and the plan are obtained,
`Service` is the phase dispatch run after the three read calls. -/
theorem Service_eq_dispatch (p : ironicProvisioner) (data : ServicingData)
    (unprepared restartOnFailure : Bool) (acc : AccessDetails) (node : Node)
    (steps : List ServiceStep)
    (hcap : p.availableFeatures.HasServicing = true)
    (hacc : p.bmcAccess = .ok acc) (hnode : p.getNode = .ok node)
    (hplan : (buildServiceSteps p acc data).1 = .ok steps) :
    Service p data unprepared restartOnFailure =
      serviceDispatch p acc node data unprepared restartOnFailure (readCalls data) := by
  have hc := buildServiceSteps_calls p acc data
  unfold Service
  simp only [hcap, hacc, hnode, Bool.not_true, Bool.false_eq_true, if_false]
  rcases hb : buildServiceSteps p acc data with ⟨r, c⟩
  rw [hb] at hplan hc
  simp only at hplan hc
  subst hplan hc
  rfl

/-- When the guard fails, `Service` returns at once and calls nothing. -/
theorem Service_guard_fails (p : ironicProvisioner) (data : ServicingData)
    (unprepared restartOnFailure : Bool)
    (hcap : p.availableFeatures.HasServicing = false) :
    (Service p data unprepared restartOnFailure).started = false ∧
    (Service p data unprepared restartOnFailure).calls = [] := by
  unfold Service
  simp [hcap]

/-- The three read calls are no mutation. -/
theorem readCalls_filter (data : ServicingData) :
    (readCalls data).filter RemoteCall.isMutation = [] := rfl

/-! ## The abort decider -/

/-- Claim C1: `shouldAbortServicing` follows the truth table on all combinations
of its four booleans (both triggers: abort iff neither spec is present; only
settings: iff no settings spec; only components: iff no components spec; no
trigger: never), and two servicing data that agree on the four booleans get the
same answer, whatever their other fields are. -/
theorem shouldAbortServicing_truth_table (data : ServicingData) :
    (data.ServicingTriggeredBySettings = true → data.ServicingTriggeredByComponents = true →
      (shouldAbortServicing data = true ↔
        data.HasFirmwareSettingsSpec = false ∧ data.HasFirmwareComponentsSpec = false)) ∧
    (data.ServicingTriggeredBySettings = true → data.ServicingTriggeredByComponents = false →
      (shouldAbortServicing data = true ↔ data.HasFirmwareSettingsSpec = false)) ∧
    (data.ServicingTriggeredBySettings = false → data.ServicingTriggeredByComponents = true →
      (shouldAbortServicing data = true ↔ data.HasFirmwareComponentsSpec = false)) ∧
    (data.ServicingTriggeredBySettings = false → data.ServicingTriggeredByComponents = false →
      shouldAbortServicing data = false) ∧
    (∀ other : ServicingData,
      other.ServicingTriggeredBySettings = data.ServicingTriggeredBySettings →
      other.ServicingTriggeredByComponents = data.ServicingTriggeredByComponents →
      other.HasFirmwareSettingsSpec = data.HasFirmwareSettingsSpec →
      other.HasFirmwareComponentsSpec = data.HasFirmwareComponentsSpec →
      shouldAbortServicing other = shouldAbortServicing data) := by
  refine ⟨?_, ?_, ?_, ?_, ?_⟩
  · intro h1 h2
    simp [shouldAbortServicing, h1, h2]
  · intro h1 h2
    simp [shouldAbortServicing, h1, h2]
  · intro h1 h2
    simp [shouldAbortServicing, h1, h2]
  · intro h1 h2
    simp [shouldAbortServicing, h1, h2]
  · intro other h1 h2 h3 h4
    simp only [shouldAbortServicing, h1, h2, h3, h4]

/-- Witness of C1: settings alone triggered the operation and the settings spec
is withdrawn, so the decider says abort; the data with a pending setting and the
same four flags gets the same answer. -/
theorem shouldAbortServicing_truth_table_witness :
    shouldAbortServicing (emptyData false true true false) = true ∧
    shouldAbortServicing (settingData false true true false) =
      shouldAbortServicing (emptyData false true true false) :=
  ⟨((shouldAbortServicing_truth_table (emptyData false true true false)).2.1 rfl rfl).2 rfl,
   (shouldAbortServicing_truth_table (emptyData false true true false)).2.2.2.2
     (settingData false true true false) rfl rfl rfl rfl⟩

/-! ## The entry guard -/

/-- Claim C2: when the remote system does not advertise servicing, `Service`
returns the Failed outcome whose message names the required version 1.87 and the
available maximum version, with `started = false` and no error, and calls no
collaborator at all, for every desired data, flags and remote state. -/
theorem Service_unsupported (p : ironicProvisioner) (data : ServicingData)
    (unprepared restartOnFailure : Bool)
    (hcap : p.availableFeatures.HasServicing = false) :
    Service p data unprepared restartOnFailure =
      { result := (operationFailed
          ("servicing not supported: requires API version 1.87, available is 1." ++
            toString p.availableFeatures.MaxVersion)).1
        started := false
        err := none
        calls := [] } := by
  unfold Service
  simp [hcap, operationFailed]

/-- Witness of C2: a remote system whose maximum version is 72. -/
theorem Service_unsupported_witness :
    (oldProvisioner (sampleNode Servicing true)).availableFeatures.HasServicing = false ∧
    Service (oldProvisioner (sampleNode Servicing true)) (settingData false false true false)
        true true =
      { result := { Dirty := false, RequeueAfter := 0,
                    ErrorMessage :=
                      "servicing not supported: requires API version 1.87, available is 1.72" }
        started := false
        err := none
        calls := [] } :=
  ⟨rfl, Service_unsupported (oldProvisioner (sampleNode Servicing true))
    (settingData false false true false) true true rfl⟩

/-! ## Phase `ServiceFail` without restart -/

/-- Claim C3: in a pass that passes the guard, fetches the node and plans, with
phase ServiceFailed, no abort warranted and `restartOnFailure = false`, `Service`
returns the Failed outcome whose message is the node's last-error string, with
`started = false` and no error, after the three read calls only: no maintenance
change and no transition request, whatever the maintenance flag, the plan and
`unprepared` are. -/
theorem Service_failed_no_restart (p : ironicProvisioner) (data : ServicingData)
    (unprepared : Bool) (acc : AccessDetails) (node : Node) (steps : List ServiceStep)
    (hcap : p.availableFeatures.HasServicing = true)
    (hacc : p.bmcAccess = .ok acc) (hnode : p.getNode = .ok node)
    (hplan : (buildServiceSteps p acc data).1 = .ok steps)
    (hphase : node.ProvisionState = ServiceFail)
    (habort : shouldAbortServicing data = false) :
    Service p data unprepared false =
      { result := (operationFailed node.LastError).1
        started := false
        err := none
        calls := readCalls data } ∧
    (Service p data unprepared false).result.ErrorMessage = node.LastError ∧
    (Service p data unprepared false).calls.filter RemoteCall.isMutation = [] := by
  have h : Service p data unprepared false =
      { result := (operationFailed node.LastError).1
        started := false
        err := none
        calls := readCalls data } := by
    rw [Service_eq_dispatch p data unprepared false acc node steps hcap hacc hnode hplan]
    unfold serviceDispatch
    simp [hphase, habort, operationFailed]
  refine ⟨h, ?_, ?_⟩
  · rw [h]; rfl
  · rw [h]; rfl

/-- Witness of C3: a failed node held in maintenance, a pending setting, the
settings spec still present. -/
theorem Service_failed_no_restart_witness :
    Service (sampleProvisioner (sampleNode ServiceFail true) true)
        (settingData true false true false) true false =
      { result := { Dirty := false, RequeueAfter := 0, ErrorMessage := "firmware update failed" }
        started := false
        err := none
        calls := [RemoteCall.bmcAccess, RemoteCall.getNode, RemoteCall.buildBIOSSettings none] } :=
  (Service_failed_no_restart (sampleProvisioner (sampleNode ServiceFail true) true)
    (settingData true false true false) true sampleAccess (sampleNode ServiceFail true)
    [{ Interface := InterfaceBIOS, Step := "apply_configuration",
       Args := [("settings", [[("name", "ProcVirtualization"), ("value", "Enabled")]])] }]
    rfl rfl rfl rfl rfl rfl).1

/-! ## The abort procedure -/

/-- The four phase constants are pairwise distinct. -/
theorem phases_distinct :
    Active ≠ ServiceFail ∧ Servicing ≠ ServiceFail ∧ ServiceWait ≠ ServiceFail ∧
    Servicing ≠ Active ∧ ServiceWait ≠ Active ∧ ServiceWait ≠ Servicing := by
  decide

/-- The dispatch in the phases where an abort can be warranted, when it is: the
abort procedure runs after the read calls. -/
theorem serviceDispatch_abort (p : ironicProvisioner) (acc : AccessDetails) (node : Node)
    (data : ServicingData) (unprepared restartOnFailure : Bool) (pre : List RemoteCall)
    (hphase : node.ProvisionState = ServiceFail ∨ node.ProvisionState = Servicing ∨
      node.ProvisionState = ServiceWait)
    (habort : shouldAbortServicing data = true) :
    serviceDispatch p acc node data unprepared restartOnFailure pre =
      { abortServicing p node with calls := pre ++ (abortServicing p node).calls } := by
  obtain ⟨h1, h2, h3, h4, h5, h6⟩ := phases_distinct
  unfold serviceDispatch
  rcases hphase with h | h | h
  · simp [h, habort]
  · simp [h, habort, h2, h4]
  · simp [h, habort, h3, h5]

/-- Counterexample to C4 as stated: phase Servicing, triggered by settings only,
settings spec withdrawn, maintenance not set, guard, fetch and planning
succeeding, and a remote system that answers the Abort request with
`started = false` (it is busy).  The Abort transition is requested and `Service`
returns `started = false`. -/
theorem Service_abort_started_counterexample :
    (sampleProvisioner (sampleNode Servicing false) false).availableFeatures.HasServicing = true ∧
    (sampleProvisioner (sampleNode Servicing false) false).getNode =
      .ok { ProvisionState := Servicing, Maintenance := false,
            LastError := "firmware update failed", ServiceStep := [] } ∧
    (buildServiceSteps (sampleProvisioner (sampleNode Servicing false) false) sampleAccess
      (emptyData false false true false)).1 = .ok [] ∧
    (emptyData false false true false).ServicingTriggeredBySettings = true ∧
    (emptyData false false true false).ServicingTriggeredByComponents = false ∧
    (emptyData false false true false).HasFirmwareSettingsSpec = false ∧
    Service (sampleProvisioner (sampleNode Servicing false) false)
        (emptyData false false true false) false false =
      { result := { Dirty := true, RequeueAfter := 10000000000, ErrorMessage := "" }
        started := false
        err := none
        calls := [RemoteCall.bmcAccess, RemoteCall.getNode, RemoteCall.buildBIOSSettings none,
          RemoteCall.changeNodeProvisionState (sampleNode Servicing false)
            { Target := TargetAbort, ServiceSteps := [] }] } := by
  refine ⟨rfl, rfl, rfl, rfl, rfl, rfl, ?_⟩
  decide

/-- Claim C4, amended: with the maintenance flag not set, the abort procedure
requests the Abort target transition and reports the started flag, the outcome
and the error that this request yields; in a pass with phase Servicing, triggered
by settings only, settings spec withdrawn and maintenance not set (guard, fetch
and planning succeeding), `Service` issues the Abort request after the read calls
and returns what the request yields, so `started = true` whenever the request
reports it started. -/
theorem Service_abort_requests_transition (p : ironicProvisioner) (data : ServicingData)
    (unprepared restartOnFailure : Bool) (acc : AccessDetails) (node : Node)
    (steps : List ServiceStep)
    (hcap : p.availableFeatures.HasServicing = true)
    (hacc : p.bmcAccess = .ok acc) (hnode : p.getNode = .ok node)
    (hplan : (buildServiceSteps p acc data).1 = .ok steps)
    (hphase : node.ProvisionState = Servicing)
    (hby : data.ServicingTriggeredBySettings = true)
    (hbyc : data.ServicingTriggeredByComponents = false)
    (hspec : data.HasFirmwareSettingsSpec = false)
    (hmaint : node.Maintenance = false) :
    abortServicing p node =
      { result := (p.tryChangeNodeProvisionState node
          { Target := TargetAbort, ServiceSteps := [] }).2.1
        started := (p.tryChangeNodeProvisionState node
          { Target := TargetAbort, ServiceSteps := [] }).1
        err := (p.tryChangeNodeProvisionState node
          { Target := TargetAbort, ServiceSteps := [] }).2.2
        calls := [RemoteCall.changeNodeProvisionState node
          { Target := TargetAbort, ServiceSteps := [] }] } ∧
    Service p data unprepared restartOnFailure =
      { abortServicing p node with
        calls := readCalls data ++ [RemoteCall.changeNodeProvisionState node
          { Target := TargetAbort, ServiceSteps := [] }] } ∧
    ((p.tryChangeNodeProvisionState node { Target := TargetAbort, ServiceSteps := [] }).1 = true →
      (Service p data unprepared restartOnFailure).started = true) := by
  have hab : abortServicing p node =
      { result := (p.tryChangeNodeProvisionState node
          { Target := TargetAbort, ServiceSteps := [] }).2.1
        started := (p.tryChangeNodeProvisionState node
          { Target := TargetAbort, ServiceSteps := [] }).1
        err := (p.tryChangeNodeProvisionState node
          { Target := TargetAbort, ServiceSteps := [] }).2.2
        calls := [RemoteCall.changeNodeProvisionState node
          { Target := TargetAbort, ServiceSteps := [] }] } := by
    unfold abortServicing
    simp [hmaint]
  have habort : shouldAbortServicing data = true := by
    simp [shouldAbortServicing, hby, hbyc, hspec]
  have hsv : Service p data unprepared restartOnFailure =
      { abortServicing p node with
        calls := readCalls data ++ [RemoteCall.changeNodeProvisionState node
          { Target := TargetAbort, ServiceSteps := [] }] } := by
    rw [Service_eq_dispatch p data unprepared restartOnFailure acc node steps hcap hacc hnode
      hplan, serviceDispatch_abort p acc node data unprepared restartOnFailure (readCalls data)
      (Or.inr (Or.inl hphase)) habort]
    rw [hab]
  refine ⟨hab, hsv, ?_⟩
  intro hst
  rw [hsv, hab]
  exact hst

/-- Witness of C4 (amended): the remote system accepts the Abort request. -/
theorem Service_abort_requests_transition_witness :
    (Service (sampleProvisioner (sampleNode Servicing false) true)
        (emptyData false false true false) false false).started = true :=
  (Service_abort_requests_transition (sampleProvisioner (sampleNode Servicing false) true)
    (emptyData false false true false) false false sampleAccess (sampleNode Servicing false) []
    rfl rfl rfl rfl rfl rfl rfl rfl rfl).2.2 rfl

/-- Claim C5: in a pass that reaches the phase dispatch, when an abort is
warranted and the node's maintenance flag is set, in phase ServiceFailed,
Servicing or ServiceWaiting and for either value of `restartOnFailure` and
`unprepared`, the only mutation `Service` issues is clearing the maintenance flag
(value false, empty reason): no transition is requested, `started` is false and
the outcome and error are those the maintenance-flag mutation yields. -/
theorem Service_abort_clears_maintenance (p : ironicProvisioner) (data : ServicingData)
    (unprepared restartOnFailure : Bool) (acc : AccessDetails) (node : Node)
    (steps : List ServiceStep)
    (hcap : p.availableFeatures.HasServicing = true)
    (hacc : p.bmcAccess = .ok acc) (hnode : p.getNode = .ok node)
    (hplan : (buildServiceSteps p acc data).1 = .ok steps)
    (hphase : node.ProvisionState = ServiceFail ∨ node.ProvisionState = Servicing ∨
      node.ProvisionState = ServiceWait)
    (habort : shouldAbortServicing data = true)
    (hmaint : node.Maintenance = true) :
    Service p data unprepared restartOnFailure =
      { result := (p.setMaintenanceFlag node false "").1
        started := false
        err := (p.setMaintenanceFlag node false "").2
        calls := readCalls data ++ [RemoteCall.setMaintenanceFlag node false ""] } ∧
    (Service p data unprepared restartOnFailure).calls.filter RemoteCall.isMutation =
      [RemoteCall.setMaintenanceFlag node false ""] ∧
    (Service p data unprepared restartOnFailure).calls.filter RemoteCall.isTransition = [] := by
  have h : Service p data unprepared restartOnFailure =
      { result := (p.setMaintenanceFlag node false "").1
        started := false
        err := (p.setMaintenanceFlag node false "").2
        calls := readCalls data ++ [RemoteCall.setMaintenanceFlag node false ""] } := by
    rw [Service_eq_dispatch p data unprepared restartOnFailure acc node steps hcap hacc hnode
      hplan, serviceDispatch_abort p acc node data unprepared restartOnFailure (readCalls data)
      hphase habort]
    unfold abortServicing
    simp [hmaint]
  refine ⟨h, ?_, ?_⟩
  · rw [h]; rfl
  · rw [h]; rfl

/-- Witness of C5: a failed node held in maintenance, both triggers set and both
specs withdrawn, a restart requested. -/
theorem Service_abort_clears_maintenance_witness :
    Service (sampleProvisioner (sampleNode ServiceFail true) true)
        (settingData false false true true) true true =
      { result := { Dirty := true, RequeueAfter := 10000000000, ErrorMessage := "" }
        started := false
        err := none
        calls := [RemoteCall.bmcAccess, RemoteCall.getNode, RemoteCall.buildBIOSSettings none,
          RemoteCall.setMaintenanceFlag (sampleNode ServiceFail true) false ""] } :=
  (Service_abort_clears_maintenance (sampleProvisioner (sampleNode ServiceFail true) true)
    (settingData false false true true) true true sampleAccess (sampleNode ServiceFail true)
    [{ Interface := InterfaceBIOS, Step := "apply_configuration",
       Args := [("settings", [[("name", "ProcVirtualization"), ("value", "Enabled")]])] }]
    rfl rfl rfl rfl (Or.inl rfl) rfl rfl).1

/-! ## Phases `Servicing` and `ServiceWait` without abort -/

/-- Claim C6: in a pass that reaches the phase dispatch with phase Servicing or
ServiceWaiting and no abort warranted, `Service` returns Continuing with the
fixed delay `provisionRequeueDelay`, `started = false` and no error, after the
read calls only: no maintenance change and no transition request, whatever
`unprepared`, `restartOnFailure`, the maintenance flag and the plan are. -/
theorem Service_in_progress_continues (p : ironicProvisioner) (data : ServicingData)
    (unprepared restartOnFailure : Bool) (acc : AccessDetails) (node : Node)
    (steps : List ServiceStep)
    (hcap : p.availableFeatures.HasServicing = true)
    (hacc : p.bmcAccess = .ok acc) (hnode : p.getNode = .ok node)
    (hplan : (buildServiceSteps p acc data).1 = .ok steps)
    (hphase : node.ProvisionState = Servicing ∨ node.ProvisionState = ServiceWait)
    (habort : shouldAbortServicing data = false) :
    Service p data unprepared restartOnFailure =
      { result := (operationContinuing p.provisionRequeueDelay).1
        started := false
        err := none
        calls := readCalls data } ∧
    (Service p data unprepared restartOnFailure).calls.filter RemoteCall.isMutation = [] := by
  obtain ⟨h1, h2, h3, h4, h5, h6⟩ := phases_distinct
  have h : Service p data unprepared restartOnFailure =
      { result := (operationContinuing p.provisionRequeueDelay).1
        started := false
        err := none
        calls := readCalls data } := by
    rw [Service_eq_dispatch p data unprepared restartOnFailure acc node steps hcap hacc hnode
      hplan]
    unfold serviceDispatch
    rcases hphase with hp | hp
    · simp [hp, habort, h2, h4, operationContinuing]
    · simp [hp, habort, h3, h5, operationContinuing]
  refine ⟨h, ?_⟩
  rw [h]; rfl

/-- Witness of C6: a node waiting in servicing and held in maintenance, a pending
setting, the settings spec still present, both flags of the caller set. -/
theorem Service_in_progress_continues_witness :
    Service (sampleProvisioner (sampleNode ServiceWait true) true)
        (settingData true false true false) true true =
      { result := { Dirty := true, RequeueAfter := 10000000000, ErrorMessage := "" }
        started := false
        err := none
        calls := [RemoteCall.bmcAccess, RemoteCall.getNode, RemoteCall.buildBIOSSettings none] } :=
  (Service_in_progress_continues (sampleProvisioner (sampleNode ServiceWait true) true)
    (settingData true false true false) true true sampleAccess (sampleNode ServiceWait true)
    [{ Interface := InterfaceBIOS, Step := "apply_configuration",
       Args := [("settings", [[("name", "ProcVirtualization"), ("value", "Enabled")]])] }]
    rfl rfl rfl rfl (Or.inr rfl) rfl).1

/-! ## Phase `Active` -/

/-- Claim C7: in a pass that reaches the phase dispatch with phase Active and
`unprepared = false`, `Service` returns Complete with `started = false` and no
error after the read calls only, even when the plan is not empty; a second call
against the same remote state (with any `restartOnFailure`) returns the same, so
neither call requests a mutation. -/
theorem Service_active_idle (p : ironicProvisioner) (data : ServicingData)
    (restartFirst restartSecond : Bool) (acc : AccessDetails) (node : Node)
    (steps : List ServiceStep)
    (hcap : p.availableFeatures.HasServicing = true)
    (hacc : p.bmcAccess = .ok acc) (hnode : p.getNode = .ok node)
    (hplan : (buildServiceSteps p acc data).1 = .ok steps)
    (hphase : node.ProvisionState = Active) :
    Service p data false restartFirst =
      { result := operationComplete.1, started := false, err := none,
        calls := readCalls data } ∧
    Service p data false restartSecond =
      { result := operationComplete.1, started := false, err := none,
        calls := readCalls data } ∧
    (Service p data false restartFirst).calls.filter RemoteCall.isMutation = [] ∧
    (Service p data false restartSecond).calls.filter RemoteCall.isMutation = [] := by
  obtain ⟨h1, h2, h3, h4, h5, h6⟩ := phases_distinct
  have h : ∀ r : Bool, Service p data false r =
      { result := operationComplete.1, started := false, err := none,
        calls := readCalls data } := by
    intro r
    rw [Service_eq_dispatch p data false r acc node steps hcap hacc hnode hplan]
    unfold serviceDispatch serviceActive
    simp [hphase, h1, operationComplete]
  refine ⟨h restartFirst, h restartSecond, ?_, ?_⟩
  · rw [h restartFirst]; rfl
  · rw [h restartSecond]; rfl

/-- Witness of C7: an active node and a pending setting (the plan has one BIOS
step); nothing is requested. -/
theorem Service_active_idle_witness :
    Service (sampleProvisioner (sampleNode Active false) true)
        (settingData true false false false) false true =
      { result := { Dirty := false, RequeueAfter := 0, ErrorMessage := "" }
        started := false
        err := none
        calls := [RemoteCall.bmcAccess, RemoteCall.getNode, RemoteCall.buildBIOSSettings none] } :=
  (Service_active_idle (sampleProvisioner (sampleNode Active false) true)
    (settingData true false false false) true false sampleAccess (sampleNode Active false)
    [{ Interface := InterfaceBIOS, Step := "apply_configuration",
       Args := [("settings", [[("name", "ProcVirtualization"), ("value", "Enabled")]])] }]
    rfl rfl rfl rfl rfl).1

/-- The start procedure on a plan that is not empty: one Service transition
request carrying the plan, after the settings translation of its own planning. -/
theorem startServicing_nonempty (p : ironicProvisioner) (acc : AccessDetails) (node : Node)
    (data : ServicingData) (steps : List ServiceStep)
    (hplan : (buildServiceSteps p acc data).1 = .ok steps) (hne : steps ≠ []) :
    startServicing p acc node data =
      ((p.tryChangeNodeProvisionState node { Target := TargetService, ServiceSteps := steps }).1,
       (p.tryChangeNodeProvisionState node { Target := TargetService, ServiceSteps := steps }).2.1,
       (p.tryChangeNodeProvisionState node { Target := TargetService, ServiceSteps := steps }).2.2,
       [RemoteCall.buildBIOSSettings data.FirmwareConfig,
        RemoteCall.changeNodeProvisionState node
          { Target := TargetService, ServiceSteps := steps }]) := by
  have hc := buildServiceSteps_calls p acc data
  unfold startServicing
  rcases hb : buildServiceSteps p acc data with ⟨r, c⟩
  rw [hb] at hplan hc
  simp only at hplan hc
  subst hplan hc
  have hlen : steps.length ≠ 0 := fun h => hne (List.length_eq_zero.mp h)
  simp [hlen]

/-- The start procedure on an empty plan: nothing to do, no request, not started. -/
theorem startServicing_empty (p : ironicProvisioner) (acc : AccessDetails) (node : Node)
    (data : ServicingData) (hplan : (buildServiceSteps p acc data).1 = .ok []) :
    startServicing p acc node data =
      (false, operationComplete.1, none, [RemoteCall.buildBIOSSettings data.FirmwareConfig]) := by
  have hc := buildServiceSteps_calls p acc data
  unfold startServicing
  rcases hb : buildServiceSteps p acc data with ⟨r, c⟩
  rw [hb] at hplan hc
  simp only at hplan hc
  subst hplan hc
  simp [operationComplete]

/-- Claim C8: in a pass that reaches the phase dispatch with phase Active,
`unprepared = true` and a plan that is not empty, `Service` issues exactly one
mutation, a transition request with target Service whose step list is the plan
of `buildServiceSteps` for the desired data, in the same order; when that request
reports started, `Service` returns the request's outcome and error with
`started = true`. -/
theorem Service_active_starts (p : ironicProvisioner) (data : ServicingData)
    (restartOnFailure : Bool) (acc : AccessDetails) (node : Node) (steps : List ServiceStep)
    (hcap : p.availableFeatures.HasServicing = true)
    (hacc : p.bmcAccess = .ok acc) (hnode : p.getNode = .ok node)
    (hplan : (buildServiceSteps p acc data).1 = .ok steps)
    (hphase : node.ProvisionState = Active)
    (hne : steps ≠ []) :
    (Service p data true restartOnFailure).calls =
      readCalls data ++ [RemoteCall.buildBIOSSettings data.FirmwareConfig,
        RemoteCall.changeNodeProvisionState node
          { Target := TargetService, ServiceSteps := steps }] ∧
    (Service p data true restartOnFailure).calls.filter RemoteCall.isMutation =
      [RemoteCall.changeNodeProvisionState node
        { Target := TargetService, ServiceSteps := steps }] ∧
    ((p.tryChangeNodeProvisionState node
        { Target := TargetService, ServiceSteps := steps }).1 = true →
      (Service p data true restartOnFailure).result =
        (p.tryChangeNodeProvisionState node
          { Target := TargetService, ServiceSteps := steps }).2.1 ∧
      (Service p data true restartOnFailure).err =
        (p.tryChangeNodeProvisionState node
          { Target := TargetService, ServiceSteps := steps }).2.2 ∧
      (Service p data true restartOnFailure).started = true) := by
  obtain ⟨h1, h2, h3, h4, h5, h6⟩ := phases_distinct
  have hd : Service p data true restartOnFailure =
      serviceActive p acc node data true (readCalls data) := by
    rw [Service_eq_dispatch p data true restartOnFailure acc node steps hcap hacc hnode hplan]
    unfold serviceDispatch
    simp [hphase, h1]
  have hs := startServicing_nonempty p acc node data steps hplan hne
  have hcalls : (Service p data true restartOnFailure).calls =
      readCalls data ++ [RemoteCall.buildBIOSSettings data.FirmwareConfig,
        RemoteCall.changeNodeProvisionState node
          { Target := TargetService, ServiceSteps := steps }] := by
    rw [hd]
    unfold serviceActive
    rw [hs]
    simp only [if_true]
    split <;> rfl
  refine ⟨hcalls, ?_, ?_⟩
  · rw [hcalls]
    simp [List.filter_append, readCalls, RemoteCall.isMutation]
  · intro hst
    rw [hd]
    unfold serviceActive
    rw [hs]
    simp [hst]

/-- Witness of C8 (scenario A): an active node, `unprepared = true`, one setting
that differs; one Service transition with one BIOS step, `started = true`. -/
theorem Service_active_starts_witness :
    (Service (sampleProvisioner (sampleNode Active false) true)
        (settingData true false false false) true false).calls.filter RemoteCall.isMutation =
      [RemoteCall.changeNodeProvisionState (sampleNode Active false)
        { Target := TargetService,
          ServiceSteps := [{ Interface := InterfaceBIOS, Step := "apply_configuration",
                             Args := [("settings",
                               [[("name", "ProcVirtualization"), ("value", "Enabled")]])] }] }] ∧
    (Service (sampleProvisioner (sampleNode Active false) true)
        (settingData true false false false) true false).started = true :=
  ⟨(Service_active_starts (sampleProvisioner (sampleNode Active false) true)
      (settingData true false false false) false sampleAccess (sampleNode Active false)
      [{ Interface := InterfaceBIOS, Step := "apply_configuration",
         Args := [("settings", [[("name", "ProcVirtualization"), ("value", "Enabled")]])] }]
      rfl rfl rfl rfl rfl (by decide)).2.1,
   ((Service_active_starts (sampleProvisioner (sampleNode Active false) true)
      (settingData true false false false) false sampleAccess (sampleNode Active false)
      [{ Interface := InterfaceBIOS, Step := "apply_configuration",
         Args := [("settings", [[("name", "ProcVirtualization"), ("value", "Enabled")]])] }]
      rfl rfl rfl rfl rfl (by decide)).2.2 rfl).2.2⟩

/-! ## The started flag -/

/-- The start procedure when its planning fails: a Failed outcome, no request. -/
theorem startServicing_error (p : ironicProvisioner) (acc : AccessDetails) (node : Node)
    (data : ServicingData) (e : Error) (hplan : (buildServiceSteps p acc data).1 = .error e) :
    startServicing p acc node data =
      (false, (operationFailed e).1, none,
        [RemoteCall.buildBIOSSettings data.FirmwareConfig]) := by
  have hc := buildServiceSteps_calls p acc data
  unfold startServicing
  rcases hb : buildServiceSteps p acc data with ⟨r, c⟩
  rw [hb] at hplan hc
  simp only at hplan hc
  subst hplan hc
  simp [operationFailed]

/-- The Active branch with a restart pending and an empty plan: Complete, reported
as started, with no request. -/
theorem serviceActive_empty (p : ironicProvisioner) (acc : AccessDetails) (node : Node)
    (data : ServicingData) (pre : List RemoteCall)
    (hplan : (buildServiceSteps p acc data).1 = .ok []) :
    serviceActive p acc node data true pre =
      { result := operationComplete.1, started := true, err := none,
        calls := pre ++ [RemoteCall.buildBIOSSettings data.FirmwareConfig] } := by
  unfold serviceActive
  rw [startServicing_empty p acc node data hplan]
  simp [operationComplete]

/-- The Active branch with a restart pending and a plan that is not empty: the
calls end with the Service transition request. -/
theorem serviceActive_nonempty_calls (p : ironicProvisioner) (acc : AccessDetails)
    (node : Node) (data : ServicingData) (pre : List RemoteCall) (steps : List ServiceStep)
    (hplan : (buildServiceSteps p acc data).1 = .ok steps) (hne : steps ≠ []) :
    (serviceActive p acc node data true pre).calls =
      pre ++ [RemoteCall.buildBIOSSettings data.FirmwareConfig,
        RemoteCall.changeNodeProvisionState node
          { Target := TargetService, ServiceSteps := steps }] := by
  unfold serviceActive
  rw [startServicing_nonempty p acc node data steps hplan hne]
  simp only [if_true]
  split <;> rfl

/-- The Active branch with no restart pending: Complete, nothing called. -/
theorem serviceActive_idle (p : ironicProvisioner) (acc : AccessDetails) (node : Node)
    (data : ServicingData) (pre : List RemoteCall) :
    serviceActive p acc node data false pre =
      { result := operationComplete.1, started := false, err := none, calls := pre } := by
  unfold serviceActive
  simp [operationComplete]

/-- The abort procedure makes exactly one call, a mutation, and reports started
only when that call is a transition request. -/
theorem abortServicing_calls (p : ironicProvisioner) (node : Node) :
    ((abortServicing p node).calls.filter RemoteCall.isMutation).length = 1 ∧
    (abortServicing p node).calls.length = 1 ∧
    ((abortServicing p node).started = true →
      (abortServicing p node).calls.filter RemoteCall.isTransition ≠ []) := by
  unfold abortServicing
  cases node.Maintenance <;> simp [RemoteCall.isMutation, RemoteCall.isTransition]

/-- A Go call returning `(value, err)` either fails or succeeds. -/
theorem except_cases {α : Type} (x : Except Error α) :
    (∃ e, x = .error e) ∨ (∃ a, x = .ok a) := by
  cases x with
  | error e => exact Or.inl ⟨e, rfl⟩
  | ok a => exact Or.inr ⟨a, rfl⟩

/-- When the handle cannot be resolved, `Service` returns the transient error
after that one call. -/
theorem Service_access_error (p : ironicProvisioner) (data : ServicingData)
    (unprepared restartOnFailure : Bool) (e : Error)
    (hcap : p.availableFeatures.HasServicing = true) (hacc : p.bmcAccess = .error e) :
    Service p data unprepared restartOnFailure =
      { result := (transientError e).1, started := false, err := some e,
        calls := [RemoteCall.bmcAccess] } := by
  unfold Service
  simp [hcap, hacc, transientError]

/-- When the node cannot be fetched, `Service` returns the transient error after
the two calls made so far. -/
theorem Service_node_error (p : ironicProvisioner) (data : ServicingData)
    (unprepared restartOnFailure : Bool) (acc : AccessDetails) (e : Error)
    (hcap : p.availableFeatures.HasServicing = true) (hacc : p.bmcAccess = .ok acc)
    (hnode : p.getNode = .error e) :
    Service p data unprepared restartOnFailure =
      { result := (transientError e).1, started := false, err := some e,
        calls := [RemoteCall.bmcAccess, RemoteCall.getNode] } := by
  unfold Service
  simp [hcap, hacc, hnode, transientError]

/-- When planning fails, `Service` returns the Failed outcome carrying the
planning error message after the read calls. -/
theorem Service_plan_error (p : ironicProvisioner) (data : ServicingData)
    (unprepared restartOnFailure : Bool) (acc : AccessDetails) (node : Node) (e : Error)
    (hcap : p.availableFeatures.HasServicing = true) (hacc : p.bmcAccess = .ok acc)
    (hnode : p.getNode = .ok node)
    (hplan : (buildServiceSteps p acc data).1 = .error e) :
    Service p data unprepared restartOnFailure =
      { result := (operationFailed e).1, started := false, err := none,
        calls := readCalls data } := by
  have hc := buildServiceSteps_calls p acc data
  unfold Service
  simp only [hcap, hacc, hnode, Bool.not_true, Bool.false_eq_true, if_false]
  rcases hb : buildServiceSteps p acc data with ⟨r, c⟩
  rw [hb] at hplan hc
  simp only at hplan hc
  subst hplan hc
  rfl

/-- Counterexample to C9 as stated: an active node, `unprepared = true` and
desired data with nothing to change (empty plan).  `Service` returns Complete with
`started = true` although it issued no mutation: its calls are the reads and the
two settings translations. -/
theorem Service_started_without_mutation_counterexample :
    (buildServiceSteps (sampleProvisioner (sampleNode Active false) true) sampleAccess
      (emptyData false false false false)).1 = .ok [] ∧
    Service (sampleProvisioner (sampleNode Active false) true)
        (emptyData false false false false) true false =
      { result := { Dirty := false, RequeueAfter := 0, ErrorMessage := "" }
        started := true
        err := none
        calls := [RemoteCall.bmcAccess, RemoteCall.getNode, RemoteCall.buildBIOSSettings none,
          RemoteCall.buildBIOSSettings none] } ∧
    (Service (sampleProvisioner (sampleNode Active false) true)
        (emptyData false false false false) true false).calls.filter
          RemoteCall.isMutation = [] := by
  refine ⟨rfl, ?_, ?_⟩ <;> decide

/-- Claim C9, amended: whenever `Service` returns `started = true`, either a
transition request was issued during the call, or the call ran the start
procedure on an empty plan (phase Active with `unprepared = true`, or phase
ServiceFailed with `restartOnFailure = true`), in which case it returns Complete
with `started = true` and has issued no mutation.  The start procedure itself, on
an empty plan, performs no mutation and reports not started. -/
theorem Service_started_only_if (p : ironicProvisioner) (data : ServicingData)
    (unprepared restartOnFailure : Bool) :
    ((Service p data unprepared restartOnFailure).started = true →
      (Service p data unprepared restartOnFailure).calls.filter RemoteCall.isTransition ≠ [] ∨
      (∃ acc node, p.bmcAccess = .ok acc ∧ p.getNode = .ok node ∧
        (node.ProvisionState = Active ∧ unprepared = true ∨
          node.ProvisionState = ServiceFail ∧ restartOnFailure = true) ∧
        (buildServiceSteps p acc data).1 = .ok [] ∧
        Service p data unprepared restartOnFailure =
          { result := operationComplete.1, started := true, err := none,
            calls := readCalls data ++ [RemoteCall.buildBIOSSettings data.FirmwareConfig] } ∧
        (Service p data unprepared restartOnFailure).calls.filter
          RemoteCall.isMutation = [])) ∧
    (∀ (acc : AccessDetails) (node : Node), (buildServiceSteps p acc data).1 = .ok [] →
      startServicing p acc node data =
        (false, operationComplete.1, none,
          [RemoteCall.buildBIOSSettings data.FirmwareConfig])) := by
  refine ⟨?_, fun acc node h => startServicing_empty p acc node data h⟩
  intro hst
  obtain ⟨h1, h2, h3, h4, h5, h6⟩ := phases_distinct
  -- the guard, the handle, the node and the plan must have succeeded
  rcases Bool.eq_false_or_eq_true p.availableFeatures.HasServicing with hcap | hcap
  swap
  · rw [(Service_guard_fails p data unprepared restartOnFailure hcap).1] at hst
    simp at hst
  rcases except_cases p.bmcAccess with ⟨e, hacc⟩ | ⟨acc, hacc⟩
  · rw [Service_access_error p data unprepared restartOnFailure e hcap hacc] at hst
    simp at hst
  rcases except_cases p.getNode with ⟨e, hnode⟩ | ⟨node, hnode⟩
  · rw [Service_node_error p data unprepared restartOnFailure acc e hcap hacc hnode] at hst
    simp at hst
  rcases except_cases (buildServiceSteps p acc data).1 with ⟨e, hplan⟩ | ⟨steps, hplan⟩
  · rw [Service_plan_error p data unprepared restartOnFailure acc node e hcap hacc hnode
      hplan] at hst
    simp at hst
  have hd := Service_eq_dispatch p data unprepared restartOnFailure acc node steps hcap hacc
    hnode hplan
  -- the Active branch with a restart pending
  have hactive : Service p data unprepared restartOnFailure =
      serviceActive p acc node data true (readCalls data) →
      (node.ProvisionState = Active ∧ unprepared = true ∨
          node.ProvisionState = ServiceFail ∧ restartOnFailure = true) →
      (Service p data unprepared restartOnFailure).calls.filter RemoteCall.isTransition ≠ [] ∨
      (∃ acc node, p.bmcAccess = .ok acc ∧ p.getNode = .ok node ∧
        (node.ProvisionState = Active ∧ unprepared = true ∨
          node.ProvisionState = ServiceFail ∧ restartOnFailure = true) ∧
        (buildServiceSteps p acc data).1 = .ok [] ∧
        Service p data unprepared restartOnFailure =
          { result := operationComplete.1, started := true, err := none,
            calls := readCalls data ++ [RemoteCall.buildBIOSSettings data.FirmwareConfig] } ∧
        (Service p data unprepared restartOnFailure).calls.filter
          RemoteCall.isMutation = []) := by
    intro hsa hph
    by_cases hne : steps = []
    · subst hne
      right
      have hs := serviceActive_empty p acc node data (readCalls data) hplan
      refine ⟨acc, node, hacc, hnode, hph, hplan, hsa.trans hs, ?_⟩
      rw [hsa, hs]
      simp [List.filter_append, readCalls, RemoteCall.isMutation]
    · left
      rw [hsa, serviceActive_nonempty_calls p acc node data (readCalls data) steps hplan hne]
      simp [List.filter_append, readCalls, RemoteCall.isTransition]
  -- the abort procedure
  have habortcase : Service p data unprepared restartOnFailure =
      { abortServicing p node with calls := readCalls data ++ (abortServicing p node).calls } →
      (Service p data unprepared restartOnFailure).calls.filter
        RemoteCall.isTransition ≠ [] := by
    intro hsa
    rw [hsa] at hst ⊢
    have := (abortServicing_calls p node).2.2 hst
    simp only [List.filter_append]
    intro hnil
    exact this (List.append_eq_nil.mp hnil).2
  by_cases hf : node.ProvisionState = ServiceFail
  · rcases Bool.eq_false_or_eq_true (shouldAbortServicing data) with habort | habort
    · left
      exact habortcase (hd.trans (serviceDispatch_abort p acc node data unprepared
        restartOnFailure (readCalls data) (Or.inl hf) habort))
    · rcases Bool.eq_false_or_eq_true restartOnFailure with hr | hr
      · rcases Bool.eq_false_or_eq_true node.Maintenance with hm | hm
        · exfalso; revert hst; rw [hd]; unfold serviceDispatch
          simp [hf, habort, hr, hm]
        · apply hactive
          · rw [hd]; unfold serviceDispatch; simp [hf, habort, hr, hm]
          · exact Or.inr ⟨hf, hr⟩
      · exfalso; revert hst; rw [hd]; unfold serviceDispatch
        simp [hf, habort, hr, operationFailed]
  · by_cases ha : node.ProvisionState = Active
    · rcases Bool.eq_false_or_eq_true unprepared with hu | hu
      · apply hactive
        · rw [hd]; unfold serviceDispatch; simp [ha, h1, hu]
        · exact Or.inl ⟨ha, hu⟩
      · exfalso; revert hst; rw [hd]; unfold serviceDispatch
        simp [ha, h1, hu, serviceActive_idle]
    · by_cases hs : node.ProvisionState = Servicing ∨ node.ProvisionState = ServiceWait
      · rcases Bool.eq_false_or_eq_true (shouldAbortServicing data) with habort | habort
        · left
          exact habortcase (hd.trans (serviceDispatch_abort p acc node data unprepared
            restartOnFailure (readCalls data) (Or.inr hs) habort))
        · exfalso; revert hst; rw [hd]; unfold serviceDispatch
          simp [hf, ha, hs, habort, operationContinuing]
      · exfalso; revert hst; rw [hd]; unfold serviceDispatch
        simp [hf, ha, hs, transientError]

/-- Witness of C9 (amended): an active node, `unprepared = true` and one setting
that differs; `started = true` comes with a transition request. -/
theorem Service_started_only_if_witness :
    (Service (sampleProvisioner (sampleNode Active false) true)
        (settingData true false false false) true false).calls.filter
          RemoteCall.isTransition ≠ [] ∨
      (∃ acc node, (sampleProvisioner (sampleNode Active false) true).bmcAccess = .ok acc ∧
        (sampleProvisioner (sampleNode Active false) true).getNode = .ok node ∧
        (node.ProvisionState = Active ∧ true = true ∨
          node.ProvisionState = ServiceFail ∧ false = true) ∧
        (buildServiceSteps (sampleProvisioner (sampleNode Active false) true) acc
          (settingData true false false false)).1 = .ok [] ∧
        Service (sampleProvisioner (sampleNode Active false) true)
            (settingData true false false false) true false =
          { result := operationComplete.1, started := true, err := none,
            calls := readCalls (settingData true false false false) ++
              [RemoteCall.buildBIOSSettings (settingData true false false false).FirmwareConfig] } ∧
        (Service (sampleProvisioner (sampleNode Active false) true)
            (settingData true false false false) true false).calls.filter
          RemoteCall.isMutation = []) :=
  (Service_started_only_if (sampleProvisioner (sampleNode Active false) true)
    (settingData true false false false) true false).1 (by decide)

/-! ## At most one mutation per pass -/

/-- The Active branch with a restart pending when the planning of the start
procedure fails: no request is made. -/
theorem serviceActive_error_calls (p : ironicProvisioner) (acc : AccessDetails) (node : Node)
    (data : ServicingData) (pre : List RemoteCall) (e : Error)
    (hplan : (buildServiceSteps p acc data).1 = .error e) :
    (serviceActive p acc node data true pre).calls =
      pre ++ [RemoteCall.buildBIOSSettings data.FirmwareConfig] := by
  unfold serviceActive
  rw [startServicing_error p acc node data e hplan]
  simp only [if_true]
  split <;> rfl

/-- Shape of the calls of the Active branch: the calls made before, then reads,
then at most one further call. -/
theorem serviceActive_shape (p : ironicProvisioner) (acc : AccessDetails) (node : Node)
    (data : ServicingData) (unprepared : Bool) (pre : List RemoteCall) :
    ∃ mid last, (serviceActive p acc node data unprepared pre).calls = pre ++ mid ++ last ∧
      mid.filter RemoteCall.isMutation = [] ∧ last.length ≤ 1 := by
  rcases Bool.eq_false_or_eq_true unprepared with hu | hu
  · subst hu
    rcases except_cases (buildServiceSteps p acc data).1 with ⟨e, hplan⟩ | ⟨steps, hplan⟩
    · exact ⟨[RemoteCall.buildBIOSSettings data.FirmwareConfig], [],
        by rw [serviceActive_error_calls p acc node data pre e hplan]; simp, rfl, by simp⟩
    · by_cases hne : steps = []
      · subst hne
        exact ⟨[RemoteCall.buildBIOSSettings data.FirmwareConfig], [],
          by rw [serviceActive_empty p acc node data pre hplan]; simp, rfl, by simp⟩
      · exact ⟨[RemoteCall.buildBIOSSettings data.FirmwareConfig],
          [RemoteCall.changeNodeProvisionState node
            { Target := TargetService, ServiceSteps := steps }],
          by rw [serviceActive_nonempty_calls p acc node data pre steps hplan hne]; simp,
          rfl, by simp⟩
  · subst hu
    exact ⟨[], [], by rw [serviceActive_idle]; simp, rfl, by simp⟩

/-- Shape of the calls of the phase dispatch: the calls made before, then reads,
then at most one further call. -/
theorem serviceDispatch_shape (p : ironicProvisioner) (acc : AccessDetails) (node : Node)
    (data : ServicingData) (unprepared restartOnFailure : Bool) (pre : List RemoteCall) :
    ∃ mid last,
      (serviceDispatch p acc node data unprepared restartOnFailure pre).calls =
        pre ++ mid ++ last ∧
      mid.filter RemoteCall.isMutation = [] ∧ last.length ≤ 1 := by
  obtain ⟨h1, h2, h3, h4, h5, h6⟩ := phases_distinct
  have habortcase : (node.ProvisionState = ServiceFail ∨ node.ProvisionState = Servicing ∨
      node.ProvisionState = ServiceWait) → shouldAbortServicing data = true →
      ∃ mid last,
        (serviceDispatch p acc node data unprepared restartOnFailure pre).calls =
          pre ++ mid ++ last ∧
        mid.filter RemoteCall.isMutation = [] ∧ last.length ≤ 1 := by
    intro hph habort
    refine ⟨[], (abortServicing p node).calls, ?_, rfl, ?_⟩
    · rw [serviceDispatch_abort p acc node data unprepared restartOnFailure pre hph habort]
      simp
    · exact le_of_eq (abortServicing_calls p node).2.1
  by_cases hf : node.ProvisionState = ServiceFail
  · rcases Bool.eq_false_or_eq_true (shouldAbortServicing data) with habort | habort
    · exact habortcase (Or.inl hf) habort
    · rcases Bool.eq_false_or_eq_true restartOnFailure with hr | hr
      · rcases Bool.eq_false_or_eq_true node.Maintenance with hm | hm
        · refine ⟨[], [RemoteCall.setMaintenanceFlag node false ""], ?_, rfl, by simp⟩
          unfold serviceDispatch
          simp [hf, habort, hr, hm]
        · have hsa : serviceDispatch p acc node data unprepared restartOnFailure pre =
              serviceActive p acc node data true pre := by
            unfold serviceDispatch; simp [hf, habort, hr, hm]
          rw [hsa]
          exact serviceActive_shape p acc node data true pre
      · refine ⟨[], [], ?_, rfl, by simp⟩
        unfold serviceDispatch
        simp [hf, habort, hr, operationFailed]
  · by_cases ha : node.ProvisionState = Active
    · have hsa : serviceDispatch p acc node data unprepared restartOnFailure pre =
          serviceActive p acc node data unprepared pre := by
        unfold serviceDispatch; simp [ha, h1]
      rw [hsa]
      exact serviceActive_shape p acc node data unprepared pre
    · by_cases hs : node.ProvisionState = Servicing ∨ node.ProvisionState = ServiceWait
      · rcases Bool.eq_false_or_eq_true (shouldAbortServicing data) with habort | habort
        · exact habortcase (Or.inr hs) habort
        · refine ⟨[], [], ?_, rfl, by simp⟩
          unfold serviceDispatch
          simp [hf, ha, hs, habort, operationContinuing]
      · refine ⟨[], [], ?_, rfl, by simp⟩
        unfold serviceDispatch
        simp [hf, ha, hs, transientError]

/-- Shape of the calls of a pass: reads, then at most one further call. -/
theorem Service_shape (p : ironicProvisioner) (data : ServicingData)
    (unprepared restartOnFailure : Bool) :
    ∃ reads last, (Service p data unprepared restartOnFailure).calls = reads ++ last ∧
      reads.filter RemoteCall.isMutation = [] ∧ last.length ≤ 1 := by
  rcases Bool.eq_false_or_eq_true p.availableFeatures.HasServicing with hcap | hcap
  swap
  · exact ⟨[], [], by rw [(Service_guard_fails p data unprepared restartOnFailure hcap).2]; rfl,
      rfl, by simp⟩
  rcases except_cases p.bmcAccess with ⟨e, hacc⟩ | ⟨acc, hacc⟩
  · exact ⟨[RemoteCall.bmcAccess], [],
      by rw [Service_access_error p data unprepared restartOnFailure e hcap hacc]; rfl,
      rfl, by simp⟩
  rcases except_cases p.getNode with ⟨e, hnode⟩ | ⟨node, hnode⟩
  · exact ⟨[RemoteCall.bmcAccess, RemoteCall.getNode], [],
      by rw [Service_node_error p data unprepared restartOnFailure acc e hcap hacc hnode]; rfl,
      rfl, by simp⟩
  rcases except_cases (buildServiceSteps p acc data).1 with ⟨e, hplan⟩ | ⟨steps, hplan⟩
  · exact ⟨readCalls data, [],
      by rw [Service_plan_error p data unprepared restartOnFailure acc node e hcap hacc hnode
           hplan]; simp,
      rfl, by simp⟩
  obtain ⟨mid, last, hc, hmid, hlast⟩ :=
    serviceDispatch_shape p acc node data unprepared restartOnFailure (readCalls data)
  refine ⟨readCalls data ++ mid, last, ?_, ?_, hlast⟩
  · rw [Service_eq_dispatch p data unprepared restartOnFailure acc node steps hcap hacc hnode
      hplan, hc]
  · rw [List.filter_append, hmid]
    rfl

/-- A list without mutations holds no transition request. -/
theorem no_mutation_no_transition (l : List RemoteCall)
    (h : l.filter RemoteCall.isMutation = []) : l.filter RemoteCall.isTransition = [] := by
  rw [List.filter_eq_nil_iff] at h ⊢
  intro c hc
  have := h c hc
  cases c <;> simp_all [RemoteCall.isMutation, RemoteCall.isTransition]

/-- Claim C10: for every input and every behaviour of the collaborators, one
invocation of `Service` issues at most one state-mutating request, counting
maintenance-flag changes and transition requests together: at most one
transition request, and no transition request in a pass that changes the
maintenance flag. -/
theorem Service_at_most_one_mutation (p : ironicProvisioner) (data : ServicingData)
    (unprepared restartOnFailure : Bool) :
    ((Service p data unprepared restartOnFailure).calls.filter
      RemoteCall.isMutation).length ≤ 1 ∧
    ((Service p data unprepared restartOnFailure).calls.filter
      RemoteCall.isTransition).length ≤ 1 ∧
    (∀ node value reason,
      RemoteCall.setMaintenanceFlag node value reason ∈
        (Service p data unprepared restartOnFailure).calls →
      (Service p data unprepared restartOnFailure).calls.filter
        RemoteCall.isTransition = []) := by
  obtain ⟨reads, last, hc, hreads, hlast⟩ := Service_shape p data unprepared restartOnFailure
  have hreadsT := no_mutation_no_transition reads hreads
  rw [hc]
  simp only [List.filter_append, hreads, hreadsT, List.nil_append]
  refine ⟨le_trans (List.length_filter_le _ _) hlast,
    le_trans (List.length_filter_le _ _) hlast, ?_⟩
  intro node value reason hmem
  rcases List.mem_append.mp hmem with hin | hin
  · have := (List.filter_eq_nil_iff.mp hreads) _ hin
    simp [RemoteCall.isMutation] at this
  · match last, hlast, hin with
    | [c], _, hin =>
      have hceq : RemoteCall.setMaintenanceFlag node value reason = c := by simpa using hin
      subst hceq
      rfl

/-- Witness of C10: the pass that clears the maintenance flag of a failed node
before a restart issues that one mutation and no transition request, although the
plan is not empty. -/
theorem Service_at_most_one_mutation_witness :
    (Service (sampleProvisioner (sampleNode ServiceFail true) true)
      (settingData true false true false) false true).calls.filter
        RemoteCall.isTransition = [] :=
  (Service_at_most_one_mutation (sampleProvisioner (sampleNode ServiceFail true) true)
    (settingData true false true false) false true).2.2
    (sampleNode ServiceFail true) false "" (by decide)

/-! ## Planning -/

/-- Planning when the settings translation fails: the error is passed on. -/
theorem buildServiceSteps_translation_error (p : ironicProvisioner) (acc : AccessDetails)
    (data : ServicingData) (m : Error)
    (htrans : acc.BuildBIOSSettings data.FirmwareConfig = .error m) :
    (buildServiceSteps p acc data).1 = .error m := by
  unfold buildServiceSteps
  cases hcfg : data.FirmwareConfig <;> rw [hcfg] at htrans <;> simp only [htrans]

/-- Planning when the settings translation succeeds: the BIOS step when the new
settings are not empty, then the firmware step when the new updates are not
empty. -/
theorem buildServiceSteps_translation_ok (p : ironicProvisioner) (acc : AccessDetails)
    (data : ServicingData) (fw : List StringMap)
    (htrans : acc.BuildBIOSSettings data.FirmwareConfig = .ok fw) :
    (buildServiceSteps p acc data).1 =
      .ok ((if p.getNewFirmwareSettings data.ActualFirmwareSettings
              data.TargetFirmwareSettings fw ≠ [] then
            [biosStep (p.getNewFirmwareSettings data.ActualFirmwareSettings
              data.TargetFirmwareSettings fw)] else []) ++
          (if p.getFirmwareComponentsUpdates data.TargetFirmwareComponents ≠ [] then
            [firmwareStep (p.getFirmwareComponentsUpdates data.TargetFirmwareComponents)]
           else [])) := by
  unfold buildServiceSteps
  cases hcfg : data.FirmwareConfig <;> rw [hcfg] at htrans <;>
    simp only [htrans, biosStep, firmwareStep, ne_eq, List.length_eq_zero, List.nil_append] <;>
    split <;> simp

/-- Claim C11: in every phase of the remote node and for every value of the
flags, when the settings translation fails with message `m` while planning,
`Service` returns the Failed outcome whose message is `m`, with `started = false`
and no error, after the read calls only: no maintenance change and no transition
request. -/
theorem Service_planning_failure (p : ironicProvisioner) (data : ServicingData)
    (unprepared restartOnFailure : Bool) (acc : AccessDetails) (node : Node) (m : Error)
    (hcap : p.availableFeatures.HasServicing = true)
    (hacc : p.bmcAccess = .ok acc) (hnode : p.getNode = .ok node)
    (htrans : acc.BuildBIOSSettings data.FirmwareConfig = .error m) :
    Service p data unprepared restartOnFailure =
      { result := (operationFailed m).1, started := false, err := none,
        calls := readCalls data } ∧
    (Service p data unprepared restartOnFailure).result.ErrorMessage = m ∧
    (Service p data unprepared restartOnFailure).calls.filter RemoteCall.isMutation = [] := by
  have h := Service_plan_error p data unprepared restartOnFailure acc node m hcap hacc hnode
    (buildServiceSteps_translation_error p acc data m htrans)
  refine ⟨h, ?_, ?_⟩
  · rw [h]; rfl
  · rw [h]; rfl

/-- Witness of C11: a node in servicing with an abort warranted, against a handle
whose translation fails. -/
theorem Service_planning_failure_witness :
    Service (strictProvisioner (sampleNode Servicing false))
        (emptyData false false true false) true true =
      { result := { Dirty := false, RequeueAfter := 0,
                    ErrorMessage := "firmware settings are not supported" }
        started := false
        err := none
        calls := [RemoteCall.bmcAccess, RemoteCall.getNode, RemoteCall.buildBIOSSettings none] } :=
  (Service_planning_failure (strictProvisioner (sampleNode Servicing false))
    (emptyData false false true false) true true strictAccess (sampleNode Servicing false)
    "firmware settings are not supported" rfl rfl rfl rfl).1

/-- The two interface names differ. -/
theorem interfaces_distinct : InterfaceFirmware ≠ InterfaceBIOS := by decide

/-- Claim C12: when the settings translation succeeds, `buildServiceSteps`
returns the list made of the BIOS step `apply_configuration` if the computed new
settings are not empty, followed by the firmware step `update` if the computed
component updates are not empty: at most two steps, at most one per interface,
the BIOS step before the firmware step, and no step exactly when there is no
settings change and no component update. -/
theorem buildServiceSteps_plan (p : ironicProvisioner) (acc : AccessDetails)
    (data : ServicingData) (fw : List StringMap)
    (htrans : acc.BuildBIOSSettings data.FirmwareConfig = .ok fw) :
    ∃ steps, (buildServiceSteps p acc data).1 = .ok steps ∧
      steps =
        (if p.getNewFirmwareSettings data.ActualFirmwareSettings
            data.TargetFirmwareSettings fw ≠ [] then
          [{ Interface := InterfaceBIOS, Step := "apply_configuration",
             Args := [("settings", p.getNewFirmwareSettings data.ActualFirmwareSettings
               data.TargetFirmwareSettings fw)] }]
         else []) ++
        (if p.getFirmwareComponentsUpdates data.TargetFirmwareComponents ≠ [] then
          [{ Interface := InterfaceFirmware, Step := "update",
             Args := [("settings",
               p.getFirmwareComponentsUpdates data.TargetFirmwareComponents)] }]
         else []) ∧
      steps.length ≤ 2 ∧
      (steps.filter (fun s => decide (s.Interface = InterfaceBIOS))).length ≤ 1 ∧
      (steps.filter (fun s => decide (s.Interface = InterfaceFirmware))).length ≤ 1 ∧
      List.Sublist steps
        [biosStep (p.getNewFirmwareSettings data.ActualFirmwareSettings
           data.TargetFirmwareSettings fw),
         firmwareStep (p.getFirmwareComponentsUpdates data.TargetFirmwareComponents)] ∧
      (steps = [] ↔
        p.getNewFirmwareSettings data.ActualFirmwareSettings
          data.TargetFirmwareSettings fw = [] ∧
        p.getFirmwareComponentsUpdates data.TargetFirmwareComponents = []) := by
  have hd := interfaces_distinct
  refine ⟨_, buildServiceSteps_translation_ok p acc data fw htrans, ?_⟩
  by_cases hs : p.getNewFirmwareSettings data.ActualFirmwareSettings
      data.TargetFirmwareSettings fw = [] <;>
    by_cases hu : p.getFirmwareComponentsUpdates data.TargetFirmwareComponents = [] <;>
    simp [hs, hu, biosStep, firmwareStep, hd, hd.symm]

/-- Witness of C12: one differing setting and one component update give the BIOS
step followed by the firmware step. -/
theorem buildServiceSteps_plan_witness :
    ∃ steps, (buildServiceSteps (sampleProvisioner (sampleNode Active false) true)
        sampleAccess bothData).1 = .ok steps ∧
      steps =
        [{ Interface := InterfaceBIOS, Step := "apply_configuration",
           Args := [("settings", [[("name", "ProcVirtualization"), ("value", "Enabled")]])] },
         { Interface := InterfaceFirmware, Step := "update",
           Args := [("settings",
             [[("component", "bmc"), ("url", "https://example.org/bmc.bin")]])] }] :=
  (buildServiceSteps_plan (sampleProvisioner (sampleNode Active false) true) sampleAccess
    bothData [] rfl).imp (fun _ h => ⟨h.1, h.2.1.trans (by decide)⟩)

/-- The helper of the spec returns the full target mapping when some target
entry is not held by the actual settings, and nothing otherwise. -/
theorem getNewFirmwareSettings_spec (actual target : StringMap) (fw : List StringMap) :
    ((∃ m ∈ targetSettingsMapping target fw, m ∉ actual.map settingEntry) →
      getNewFirmwareSettings actual target fw = targetSettingsMapping target fw ∧
      getNewFirmwareSettings actual target fw ≠ []) ∧
    ((¬ ∃ m ∈ targetSettingsMapping target fw, m ∉ actual.map settingEntry) →
      getNewFirmwareSettings actual target fw = []) := by
  have hany : (targetSettingsMapping target fw).any
      (fun m => !(actual.map settingEntry).contains m) = true ↔
      ∃ m ∈ targetSettingsMapping target fw, m ∉ actual.map settingEntry := by
    simp [List.any_eq_true]
  constructor
  · intro hdiff
    have heq : getNewFirmwareSettings actual target fw = targetSettingsMapping target fw := by
      unfold getNewFirmwareSettings
      rw [if_pos (hany.mpr hdiff)]
    refine ⟨heq, ?_⟩
    rw [heq]
    obtain ⟨m, hm, _⟩ := hdiff
    exact List.ne_nil_of_mem hm
  · intro hsame
    unfold getNewFirmwareSettings
    rw [if_neg (fun h => hsame (hany.mp h))]

/-- Claim C13: with the helper `getNewFirmwareSettings` as the spec describes it
and a successful settings translation, for every desired data in which some
target setting (translated or explicit) differs from the actual settings,
`buildServiceSteps` returns exactly one BIOS step `apply_configuration`, whose
settings argument is the full target settings mapping (translated profile
settings plus explicit target settings), not only the pairs that differ; when no
target setting differs, no BIOS step is emitted.  The comparison decides whether
the step is emitted, not what it carries. -/
theorem buildServiceSteps_full_target (p : ironicProvisioner) (acc : AccessDetails)
    (data : ServicingData) (fw : List StringMap)
    (hhelper : p.getNewFirmwareSettings = getNewFirmwareSettings)
    (htrans : acc.BuildBIOSSettings data.FirmwareConfig = .ok fw) :
    ∃ steps, (buildServiceSteps p acc data).1 = .ok steps ∧
      ((∃ m ∈ targetSettingsMapping data.TargetFirmwareSettings fw,
          m ∉ data.ActualFirmwareSettings.map settingEntry) →
        steps.filter (fun s => decide (s.Interface = InterfaceBIOS)) =
          [{ Interface := InterfaceBIOS, Step := "apply_configuration",
             Args := [("settings",
               targetSettingsMapping data.TargetFirmwareSettings fw)] }]) ∧
      ((¬ ∃ m ∈ targetSettingsMapping data.TargetFirmwareSettings fw,
          m ∉ data.ActualFirmwareSettings.map settingEntry) →
        steps.filter (fun s => decide (s.Interface = InterfaceBIOS)) = []) := by
  have hd := interfaces_distinct
  have hspec := getNewFirmwareSettings_spec data.ActualFirmwareSettings
    data.TargetFirmwareSettings fw
  refine ⟨_, buildServiceSteps_translation_ok p acc data fw htrans, ?_, ?_⟩
  · intro hdiff
    obtain ⟨heq, hne⟩ := hspec.1 hdiff
    have hfull : targetSettingsMapping data.TargetFirmwareSettings fw ≠ [] := by
      rw [← heq]; exact hne
    rw [hhelper]
    by_cases hu : p.getFirmwareComponentsUpdates data.TargetFirmwareComponents = [] <;>
      simp [hfull, heq, hu, biosStep, firmwareStep, hd]
  · intro hsame
    have heq := hspec.2 hsame
    rw [hhelper]
    by_cases hu : p.getFirmwareComponentsUpdates data.TargetFirmwareComponents = [] <;>
      simp [heq, hu, biosStep, firmwareStep, hd]

/-- Witness of C13: two target settings of which only the first differs from the
actual settings; the one BIOS step carries both pairs of the target mapping. -/
theorem buildServiceSteps_full_target_witness :
    twoSettingData.ActualFirmwareSettings =
      [("ProcVirtualization", "Disabled"), ("BootMode", "Uefi")] ∧
    twoSettingData.TargetFirmwareSettings =
      [("ProcVirtualization", "Enabled"), ("BootMode", "Uefi")] ∧
    ∃ steps, (buildServiceSteps (specProvisioner (sampleNode Active false) true)
        sampleAccess twoSettingData).1 = .ok steps ∧
      steps.filter (fun s => decide (s.Interface = InterfaceBIOS)) =
        [{ Interface := InterfaceBIOS, Step := "apply_configuration",
           Args := [("settings",
             [[("name", "ProcVirtualization"), ("value", "Enabled")],
              [("name", "BootMode"), ("value", "Uefi")]])] }] :=
  ⟨rfl, rfl,
   (buildServiceSteps_full_target (specProvisioner (sampleNode Active false) true)
      sampleAccess twoSettingData [] rfl rfl).imp
    (fun _ h => ⟨h.1, h.2.1 ⟨[("name", "ProcVirtualization"), ("value", "Enabled")],
      by decide, by decide⟩⟩)⟩

/-- Counterexample to C17 as stated: desired data without a profile.  The
settings translation is consulted all the same, with the absent profile, and
planning fails with the error of a handle whose translation rejects it. -/
theorem buildServiceSteps_no_profile_counterexample :
    (emptyData true false true false).FirmwareConfig = none ∧
    (buildServiceSteps (sampleProvisioner (sampleNode Active false) true) sampleAccess
      (emptyData true false true false)).2 = [RemoteCall.buildBIOSSettings none] ∧
    buildServiceSteps (strictProvisioner (sampleNode Active false)) strictAccess
        (emptyData true false true false) =
      (.error "firmware settings are not supported", [RemoteCall.buildBIOSSettings none]) :=
  ⟨rfl, rfl, rfl⟩

/-- Claim C17, amended: for desired data without a firmware-configuration
profile, `buildServiceSteps` still consults the settings translation once, with
the absent profile; it returns without error exactly when that translation
succeeds, and returns the translation's error unchanged when it fails. -/
theorem buildServiceSteps_no_profile (p : ironicProvisioner) (acc : AccessDetails)
    (data : ServicingData) (hnone : data.FirmwareConfig = none) :
    (buildServiceSteps p acc data).2 = [RemoteCall.buildBIOSSettings none] ∧
    (∀ m, acc.BuildBIOSSettings none = .error m →
      (buildServiceSteps p acc data).1 = .error m) ∧
    (∀ fw, acc.BuildBIOSSettings none = .ok fw →
      ∃ steps, (buildServiceSteps p acc data).1 = .ok steps) := by
  refine ⟨?_, ?_, ?_⟩
  · rw [buildServiceSteps_calls, hnone]
  · intro m hm
    exact buildServiceSteps_translation_error p acc data m (by rw [hnone]; exact hm)
  · intro fw hfw
    exact ⟨_, buildServiceSteps_translation_ok p acc data fw (by rw [hnone]; exact hfw)⟩

/-- Witness of C17 (amended): no profile and a handle that translates the absent
profile to no setting; planning succeeds after one translation call. -/
theorem buildServiceSteps_no_profile_witness :
    (buildServiceSteps (sampleProvisioner (sampleNode Active false) true) sampleAccess
      (emptyData true false true false)).2 = [RemoteCall.buildBIOSSettings none] ∧
    ∃ steps, (buildServiceSteps (sampleProvisioner (sampleNode Active false) true)
      sampleAccess (emptyData true false true false)).1 = .ok steps :=
  ⟨(buildServiceSteps_no_profile (sampleProvisioner (sampleNode Active false) true)
      sampleAccess (emptyData true false true false) rfl).1,
   (buildServiceSteps_no_profile (sampleProvisioner (sampleNode Active false) true)
      sampleAccess (emptyData true false true false) rfl).2.2 [] rfl⟩

/-! ## Phase `ServiceFail` with a restart, and unexpected phases -/

/-- Claim C14: in a pass that reaches the phase dispatch with phase
ServiceFailed, the maintenance flag set, no abort warranted and
`restartOnFailure = true`, the only mutation `Service` issues is clearing the
maintenance flag: no transition is requested even when the plan is not empty,
`started` is false and the outcome and error are those the maintenance-flag
mutation yields. -/
theorem Service_failed_restart_clears_maintenance (p : ironicProvisioner)
    (data : ServicingData) (unprepared : Bool) (acc : AccessDetails) (node : Node)
    (steps : List ServiceStep)
    (hcap : p.availableFeatures.HasServicing = true)
    (hacc : p.bmcAccess = .ok acc) (hnode : p.getNode = .ok node)
    (hplan : (buildServiceSteps p acc data).1 = .ok steps)
    (hphase : node.ProvisionState = ServiceFail)
    (hmaint : node.Maintenance = true)
    (habort : shouldAbortServicing data = false) :
    Service p data unprepared true =
      { result := (p.setMaintenanceFlag node false "").1
        started := false
        err := (p.setMaintenanceFlag node false "").2
        calls := readCalls data ++ [RemoteCall.setMaintenanceFlag node false ""] } ∧
    (Service p data unprepared true).calls.filter RemoteCall.isMutation =
      [RemoteCall.setMaintenanceFlag node false ""] ∧
    (Service p data unprepared true).calls.filter RemoteCall.isTransition = [] := by
  have h : Service p data unprepared true =
      { result := (p.setMaintenanceFlag node false "").1
        started := false
        err := (p.setMaintenanceFlag node false "").2
        calls := readCalls data ++ [RemoteCall.setMaintenanceFlag node false ""] } := by
    rw [Service_eq_dispatch p data unprepared true acc node steps hcap hacc hnode hplan]
    unfold serviceDispatch
    simp [hphase, habort, hmaint]
  refine ⟨h, ?_, ?_⟩
  · rw [h]; rfl
  · rw [h]; rfl

/-- Witness of C14 (scenario D): a failed node held in maintenance, a pending
setting whose spec is still present, a restart requested. -/
theorem Service_failed_restart_clears_maintenance_witness :
    Service (sampleProvisioner (sampleNode ServiceFail true) true)
        (settingData true false true false) false true =
      { result := { Dirty := true, RequeueAfter := 10000000000, ErrorMessage := "" }
        started := false
        err := none
        calls := [RemoteCall.bmcAccess, RemoteCall.getNode, RemoteCall.buildBIOSSettings none,
          RemoteCall.setMaintenanceFlag (sampleNode ServiceFail true) false ""] } :=
  (Service_failed_restart_clears_maintenance
    (sampleProvisioner (sampleNode ServiceFail true) true)
    (settingData true false true false) false sampleAccess (sampleNode ServiceFail true)
    [{ Interface := InterfaceBIOS, Step := "apply_configuration",
       Args := [("settings", [[("name", "ProcVirtualization"), ("value", "Enabled")]])] }]
    rfl rfl rfl rfl rfl rfl rfl).1

/-- Claim C15: in a pass that reaches the phase dispatch with a phase other than
ServiceFailed, Active, Servicing and ServiceWaiting, `Service` returns the
transient error whose message names the reported phase, next to an empty result
(no Failed outcome), with `started = false`, after the read calls only, whatever
the desired data and flags are. -/
theorem Service_unexpected_phase (p : ironicProvisioner) (data : ServicingData)
    (unprepared restartOnFailure : Bool) (acc : AccessDetails) (node : Node)
    (steps : List ServiceStep)
    (hcap : p.availableFeatures.HasServicing = true)
    (hacc : p.bmcAccess = .ok acc) (hnode : p.getNode = .ok node)
    (hplan : (buildServiceSteps p acc data).1 = .ok steps)
    (hf : node.ProvisionState ≠ ServiceFail) (ha : node.ProvisionState ≠ Active)
    (hs : node.ProvisionState ≠ Servicing) (hw : node.ProvisionState ≠ ServiceWait) :
    Service p data unprepared restartOnFailure =
      { result := (transientError
          ("have unexpected ironic node state " ++ node.ProvisionState)).1
        started := false
        err := some ("have unexpected ironic node state " ++ node.ProvisionState)
        calls := readCalls data } ∧
    (Service p data unprepared restartOnFailure).result.ErrorMessage = "" ∧
    (Service p data unprepared restartOnFailure).calls.filter RemoteCall.isMutation = [] := by
  have h : Service p data unprepared restartOnFailure =
      { result := (transientError
          ("have unexpected ironic node state " ++ node.ProvisionState)).1
        started := false
        err := some ("have unexpected ironic node state " ++ node.ProvisionState)
        calls := readCalls data } := by
    rw [Service_eq_dispatch p data unprepared restartOnFailure acc node steps hcap hacc hnode
      hplan]
    unfold serviceDispatch
    simp [hf, ha, hs, hw, transientError]
  refine ⟨h, ?_, ?_⟩
  · rw [h]; rfl
  · rw [h]; rfl

/-- Witness of C15: a node reported in phase `clean wait`. -/
theorem Service_unexpected_phase_witness :
    Service (sampleProvisioner (sampleNode "clean wait" true) true)
        (settingData false false true false) true true =
      { result := { Dirty := false, RequeueAfter := 0, ErrorMessage := "" }
        started := false
        err := some "have unexpected ironic node state clean wait"
        calls := [RemoteCall.bmcAccess, RemoteCall.getNode, RemoteCall.buildBIOSSettings none] } :=
  (Service_unexpected_phase (sampleProvisioner (sampleNode "clean wait" true) true)
    (settingData false false true false) true true sampleAccess (sampleNode "clean wait" true)
    [{ Interface := InterfaceBIOS, Step := "apply_configuration",
       Args := [("settings", [[("name", "ProcVirtualization"), ("value", "Enabled")]])] }]
    rfl rfl rfl rfl (by decide) (by decide) (by decide) (by decide)).1

/-! ## The flag `unprepared` -/

/-- Outside phase Active the dispatch does not read `unprepared`. -/
theorem serviceDispatch_unprepared (p : ironicProvisioner) (acc : AccessDetails) (node : Node)
    (data : ServicingData) (restartOnFailure : Bool) (pre : List RemoteCall)
    (ha : node.ProvisionState ≠ Active) :
    serviceDispatch p acc node data true restartOnFailure pre =
      serviceDispatch p acc node data false restartOnFailure pre := by
  unfold serviceDispatch
  simp only [ha, if_false]

/-- Claim C19: `unprepared` influences `Service` only in phase Active: for every
desired data, every `restartOnFailure` and every remote state whose phase is not
Active, the pass with `unprepared = true` and the pass with `unprepared = false`
return the same result, started flag and error and make the same calls. -/
theorem Service_unprepared_irrelevant (p : ironicProvisioner) (data : ServicingData)
    (restartOnFailure : Bool)
    (hphase : ∀ node, p.getNode = .ok node → node.ProvisionState ≠ Active) :
    Service p data true restartOnFailure = Service p data false restartOnFailure := by
  rcases Bool.eq_false_or_eq_true p.availableFeatures.HasServicing with hcap | hcap
  swap
  · unfold Service
    simp [hcap]
  rcases except_cases p.bmcAccess with ⟨e, hacc⟩ | ⟨acc, hacc⟩
  · rw [Service_access_error p data true restartOnFailure e hcap hacc,
      Service_access_error p data false restartOnFailure e hcap hacc]
  rcases except_cases p.getNode with ⟨e, hnode⟩ | ⟨node, hnode⟩
  · rw [Service_node_error p data true restartOnFailure acc e hcap hacc hnode,
      Service_node_error p data false restartOnFailure acc e hcap hacc hnode]
  rcases except_cases (buildServiceSteps p acc data).1 with ⟨e, hplan⟩ | ⟨steps, hplan⟩
  · rw [Service_plan_error p data true restartOnFailure acc node e hcap hacc hnode hplan,
      Service_plan_error p data false restartOnFailure acc node e hcap hacc hnode hplan]
  rw [Service_eq_dispatch p data true restartOnFailure acc node steps hcap hacc hnode hplan,
    Service_eq_dispatch p data false restartOnFailure acc node steps hcap hacc hnode hplan]
  exact serviceDispatch_unprepared p acc node data restartOnFailure (readCalls data)
    (hphase node hnode)

/-- Witness of C19: a failed node that is restarted; both passes request the same
Service transition. -/
theorem Service_unprepared_irrelevant_witness :
    Service (sampleProvisioner (sampleNode ServiceFail false) true)
        (settingData true false true false) true true =
      Service (sampleProvisioner (sampleNode ServiceFail false) true)
        (settingData true false true false) false true :=
  Service_unprepared_irrelevant (sampleProvisioner (sampleNode ServiceFail false) true)
    (settingData true false true false) true
    (by intro node h; cases h; decide)

/-! ## Restart after a failure -/

/-- The dispatch of a failed node that is restarted is the Active branch with a
restart pending. -/
theorem serviceDispatch_restart (p : ironicProvisioner) (acc : AccessDetails) (node : Node)
    (data : ServicingData) (unprepared : Bool) (pre : List RemoteCall)
    (hphase : node.ProvisionState = ServiceFail) (hmaint : node.Maintenance = false)
    (habort : shouldAbortServicing data = false) :
    serviceDispatch p acc node data unprepared true pre =
      serviceActive p acc node data true pre := by
  unfold serviceDispatch
  simp [hphase, habort, hmaint]

/-- The dispatch of an active node is the Active branch. -/
theorem serviceDispatch_active (p : ironicProvisioner) (acc : AccessDetails) (node : Node)
    (data : ServicingData) (unprepared restartOnFailure : Bool) (pre : List RemoteCall)
    (hphase : node.ProvisionState = Active) :
    serviceDispatch p acc node data unprepared restartOnFailure pre =
      serviceActive p acc node data unprepared pre := by
  unfold serviceDispatch
  simp [hphase, phases_distinct.1]

/-- Claim C16: for a remote state with phase ServiceFailed, maintenance flag not
set and no abort warranted, `Service` with `restartOnFailure = true` (and any
`unprepared`) issues the same requests as `Service` with `unprepared = true` on
the remote state that differs only in having phase Active, and returns the same
result, started flag and error, the remote system answering the transition
request alike for the two states. -/
theorem Service_failed_restart_as_active (p : ironicProvisioner) (data : ServicingData)
    (unprepared restartSecond : Bool) (acc : AccessDetails) (node : Node)
    (steps : List ServiceStep)
    (hcap : p.availableFeatures.HasServicing = true)
    (hacc : p.bmcAccess = .ok acc) (hnode : p.getNode = .ok node)
    (hplan : (buildServiceSteps p acc data).1 = .ok steps)
    (hphase : node.ProvisionState = ServiceFail)
    (hmaint : node.Maintenance = false)
    (habort : shouldAbortServicing data = false)
    (hanswer : ∀ opts, p.tryChangeNodeProvisionState { node with ProvisionState := Active } opts =
      p.tryChangeNodeProvisionState node opts) :
    (Service { p with getNode := .ok { node with ProvisionState := Active } } data true
        restartSecond).calls =
      (Service p data unprepared true).calls.map
        (RemoteCall.withNode { node with ProvisionState := Active }) ∧
    (Service { p with getNode := .ok { node with ProvisionState := Active } } data true
        restartSecond).result = (Service p data unprepared true).result ∧
    (Service { p with getNode := .ok { node with ProvisionState := Active } } data true
        restartSecond).started = (Service p data unprepared true).started ∧
    (Service { p with getNode := .ok { node with ProvisionState := Active } } data true
        restartSecond).err = (Service p data unprepared true).err := by
  have h1 : Service p data unprepared true =
      serviceActive p acc node data true (readCalls data) := by
    rw [Service_eq_dispatch p data unprepared true acc node steps hcap hacc hnode hplan]
    exact serviceDispatch_restart p acc node data unprepared (readCalls data) hphase hmaint
      habort
  have h2 : Service { p with getNode := .ok { node with ProvisionState := Active } } data true
        restartSecond =
      serviceActive { p with getNode := .ok { node with ProvisionState := Active } } acc
        { node with ProvisionState := Active } data true (readCalls data) := by
    rw [Service_eq_dispatch { p with getNode := .ok { node with ProvisionState := Active } }
      data true restartSecond acc { node with ProvisionState := Active } steps hcap hacc rfl
      hplan]
    exact serviceDispatch_active _ acc _ data true restartSecond (readCalls data) rfl
  have hplan2 : (buildServiceSteps
      { p with getNode := .ok { node with ProvisionState := Active } } acc data).1 =
      .ok steps := hplan
  rw [h1, h2]
  by_cases hne : steps = []
  · subst hne
    rw [serviceActive_empty p acc node data (readCalls data) hplan,
      serviceActive_empty _ acc _ data (readCalls data) hplan2]
    simp [readCalls, RemoteCall.withNode]
  · refine ⟨?_, ?_⟩
    · rw [serviceActive_nonempty_calls p acc node data (readCalls data) steps hplan hne,
        serviceActive_nonempty_calls _ acc _ data (readCalls data) steps hplan2 hne]
      simp [readCalls, RemoteCall.withNode]
    · unfold serviceActive
      rw [startServicing_nonempty p acc node data steps hplan hne,
        startServicing_nonempty _ acc _ data steps hplan2 hne]
      simp only [hanswer, if_true]
      split <;> simp

/-- Witness of C16: a failed node outside maintenance with a pending setting whose
spec is still present; both passes request the Service transition with the one
BIOS step and return its outcome with `started = true`. -/
theorem Service_failed_restart_as_active_witness :
    (Service { sampleProvisioner (sampleNode ServiceFail false) true with
        getNode := .ok { sampleNode ServiceFail false with ProvisionState := Active } }
      (settingData true false true false) true false).started =
    (Service (sampleProvisioner (sampleNode ServiceFail false) true)
      (settingData true false true false) false true).started :=
  (Service_failed_restart_as_active (sampleProvisioner (sampleNode ServiceFail false) true)
    (settingData true false true false) false false sampleAccess
    (sampleNode ServiceFail false)
    [{ Interface := InterfaceBIOS, Step := "apply_configuration",
       Args := [("settings", [[("name", "ProcVirtualization"), ("value", "Enabled")]])] }]
    rfl rfl rfl rfl rfl rfl rfl (fun _ => rfl)).2.2.1

/-! ## Which transitions are requested, and when -/

/-- The two transition targets differ. -/
theorem targets_distinct : TargetService ≠ TargetAbort := by decide

/-- Every transition request among the calls of the phase dispatch is about the
fetched node and is either the Abort request of the abort procedure (abort
warranted, maintenance not set, phase ServiceFail, Servicing or ServiceWait) or
the Service request of the start procedure carrying the plan (plan not empty;
phase Active with `unprepared`, or a failed node that is restarted). -/
theorem serviceDispatch_transition_mem (p : ironicProvisioner) (acc : AccessDetails)
    (node : Node) (data : ServicingData) (unprepared restartOnFailure : Bool)
    (pre : List RemoteCall) (steps : List ServiceStep) (n : Node) (opts : ProvisionStateOpts)
    (hplan : (buildServiceSteps p acc data).1 = .ok steps)
    (hpre : RemoteCall.changeNodeProvisionState n opts ∉ pre)
    (hmem : RemoteCall.changeNodeProvisionState n opts ∈
      (serviceDispatch p acc node data unprepared restartOnFailure pre).calls) :
    n = node ∧
    ((opts = { Target := TargetAbort, ServiceSteps := [] } ∧
        shouldAbortServicing data = true ∧ node.Maintenance = false ∧
        (node.ProvisionState = ServiceFail ∨ node.ProvisionState = Servicing ∨
          node.ProvisionState = ServiceWait)) ∨
     (opts = { Target := TargetService, ServiceSteps := steps } ∧ steps ≠ [] ∧
        (node.ProvisionState = Active ∧ unprepared = true ∨
          node.ProvisionState = ServiceFail ∧ shouldAbortServicing data = false ∧
            restartOnFailure = true ∧ node.Maintenance = false))) := by
  obtain ⟨h1, h2, h3, h4, h5, h6⟩ := phases_distinct
  -- the abort procedure
  have habortcase : (node.ProvisionState = ServiceFail ∨ node.ProvisionState = Servicing ∨
      node.ProvisionState = ServiceWait) → shouldAbortServicing data = true →
      n = node ∧ opts = { Target := TargetAbort, ServiceSteps := [] } ∧
        node.Maintenance = false := by
    intro hph habort
    rw [serviceDispatch_abort p acc node data unprepared restartOnFailure pre hph habort]
      at hmem
    simp only [List.mem_append] at hmem
    rcases hmem with hin | hin
    · exact absurd hin hpre
    · unfold abortServicing at hin
      rcases Bool.eq_false_or_eq_true node.Maintenance with hm | hm
      · simp [hm] at hin
      · simp [hm] at hin
        exact ⟨hin.1, hin.2, hm⟩
  -- the Active branch
  have hactivecase : ∀ u : Bool,
      serviceDispatch p acc node data unprepared restartOnFailure pre =
        serviceActive p acc node data u pre →
      n = node ∧ opts = { Target := TargetService, ServiceSteps := steps } ∧ steps ≠ [] ∧
        u = true := by
    intro u hsa
    rw [hsa] at hmem
    rcases Bool.eq_false_or_eq_true u with hu | hu
    · subst hu
      by_cases hne : steps = []
      · subst hne
        rw [serviceActive_empty p acc node data pre hplan] at hmem
        simp at hmem
        exact absurd hmem hpre
      · rw [serviceActive_nonempty_calls p acc node data pre steps hplan hne] at hmem
        simp at hmem
        rcases hmem with hin | hin
        · exact absurd hin hpre
        · exact ⟨hin.1, hin.2, hne, rfl⟩
    · subst hu
      rw [serviceActive_idle] at hmem
      exact absurd hmem hpre
  by_cases hf : node.ProvisionState = ServiceFail
  · rcases Bool.eq_false_or_eq_true (shouldAbortServicing data) with habort | habort
    · obtain ⟨hn, ho, hm⟩ := habortcase (Or.inl hf) habort
      exact ⟨hn, Or.inl ⟨ho, habort, hm, Or.inl hf⟩⟩
    · rcases Bool.eq_false_or_eq_true restartOnFailure with hr | hr
      · rcases Bool.eq_false_or_eq_true node.Maintenance with hm | hm
        · exfalso
          unfold serviceDispatch at hmem
          simp [hf, habort, hr, hm] at hmem
          exact hpre hmem
        · subst hr
          obtain ⟨hn, ho, hne, _⟩ := hactivecase true
            (serviceDispatch_restart p acc node data unprepared pre hf hm habort)
          exact ⟨hn, Or.inr ⟨ho, hne, Or.inr ⟨hf, habort, rfl, hm⟩⟩⟩
      · exfalso
        unfold serviceDispatch at hmem
        simp [hf, habort, hr, operationFailed] at hmem
        exact hpre hmem
  · by_cases ha : node.ProvisionState = Active
    · obtain ⟨hn, ho, hne, hu⟩ := hactivecase unprepared
        (serviceDispatch_active p acc node data unprepared restartOnFailure pre ha)
      exact ⟨hn, Or.inr ⟨ho, hne, Or.inl ⟨ha, hu⟩⟩⟩
    · by_cases hs : node.ProvisionState = Servicing ∨ node.ProvisionState = ServiceWait
      · rcases Bool.eq_false_or_eq_true (shouldAbortServicing data) with habort | habort
        · obtain ⟨hn, ho, hm⟩ := habortcase (Or.inr hs) habort
          exact ⟨hn, Or.inl ⟨ho, habort, hm, Or.inr hs⟩⟩
        · exfalso
          unfold serviceDispatch at hmem
          simp [hf, ha, hs, habort, operationContinuing] at hmem
          exact hpre hmem
      · exfalso
        unfold serviceDispatch at hmem
        simp [hf, ha, hs, transientError] at hmem
        exact hpre hmem

/-- Every transition request among the calls of a pass: the pass reached the
phase dispatch, and the request is the Abort request or the Service request
described in `serviceDispatch_transition_mem`. -/
theorem Service_transition_mem (p : ironicProvisioner) (data : ServicingData)
    (unprepared restartOnFailure : Bool) (n : Node) (opts : ProvisionStateOpts)
    (hmem : RemoteCall.changeNodeProvisionState n opts ∈
      (Service p data unprepared restartOnFailure).calls) :
    ∃ acc steps, p.availableFeatures.HasServicing = true ∧ p.bmcAccess = .ok acc ∧
      p.getNode = .ok n ∧ (buildServiceSteps p acc data).1 = .ok steps ∧
      ((opts = { Target := TargetAbort, ServiceSteps := [] } ∧
          shouldAbortServicing data = true ∧ n.Maintenance = false ∧
          (n.ProvisionState = ServiceFail ∨ n.ProvisionState = Servicing ∨
            n.ProvisionState = ServiceWait)) ∨
       (opts = { Target := TargetService, ServiceSteps := steps } ∧ steps ≠ [] ∧
          (n.ProvisionState = Active ∧ unprepared = true ∨
            n.ProvisionState = ServiceFail ∧ shouldAbortServicing data = false ∧
              restartOnFailure = true ∧ n.Maintenance = false))) := by
  rcases Bool.eq_false_or_eq_true p.availableFeatures.HasServicing with hcap | hcap
  swap
  · rw [(Service_guard_fails p data unprepared restartOnFailure hcap).2] at hmem
    simp at hmem
  rcases except_cases p.bmcAccess with ⟨e, hacc⟩ | ⟨acc, hacc⟩
  · rw [Service_access_error p data unprepared restartOnFailure e hcap hacc] at hmem
    simp at hmem
  rcases except_cases p.getNode with ⟨e, hnode⟩ | ⟨node, hnode⟩
  · rw [Service_node_error p data unprepared restartOnFailure acc e hcap hacc hnode] at hmem
    simp at hmem
  rcases except_cases (buildServiceSteps p acc data).1 with ⟨e, hplan⟩ | ⟨steps, hplan⟩
  · rw [Service_plan_error p data unprepared restartOnFailure acc node e hcap hacc hnode
      hplan] at hmem
    simp [readCalls] at hmem
  rw [Service_eq_dispatch p data unprepared restartOnFailure acc node steps hcap hacc hnode
    hplan] at hmem
  obtain ⟨hn, hcase⟩ := serviceDispatch_transition_mem p acc node data unprepared
    restartOnFailure (readCalls data) steps n opts hplan (by simp [readCalls]) hmem
  subst hn
  exact ⟨acc, steps, hcap, hacc, hnode, hplan, hcase⟩

/-- Claim C18: `Service` never requests a Service-target transition while the
node reports phase Servicing or ServiceWaiting: the only transition it can
request in those phases is Abort, whatever the plan, `unprepared` and
`restartOnFailure` are; and it requests Abort, in any phase, only when
`shouldAbortServicing` is true and the phase is ServiceFailed, Servicing or
ServiceWaiting. -/
theorem Service_transition_discipline (p : ironicProvisioner) (data : ServicingData)
    (unprepared restartOnFailure : Bool) (n : Node) (opts : ProvisionStateOpts)
    (hmem : RemoteCall.changeNodeProvisionState n opts ∈
      (Service p data unprepared restartOnFailure).calls) :
    p.getNode = .ok n ∧
    (n.ProvisionState = Servicing ∨ n.ProvisionState = ServiceWait →
      opts.Target = TargetAbort ∧ opts.Target ≠ TargetService) ∧
    (opts.Target = TargetAbort →
      shouldAbortServicing data = true ∧
      (n.ProvisionState = ServiceFail ∨ n.ProvisionState = Servicing ∨
        n.ProvisionState = ServiceWait)) := by
  obtain ⟨h1, h2, h3, h4, h5, h6⟩ := phases_distinct
  have ht := targets_distinct
  obtain ⟨acc, steps, _, _, hnode, _, hcase⟩ :=
    Service_transition_mem p data unprepared restartOnFailure n opts hmem
  refine ⟨hnode, ?_, ?_⟩
  · intro hph
    rcases hcase with ⟨ho, _, _, _⟩ | ⟨_, _, hwhen⟩
    · subst ho
      exact ⟨rfl, ht.symm⟩
    · exfalso
      rcases hwhen with ⟨ha, _⟩ | ⟨hf, _⟩
      · rcases hph with hs | hs
        · exact h4 (hs.symm.trans ha)
        · exact h5 (hs.symm.trans ha)
      · rcases hph with hs | hs
        · exact h2 (hs.symm.trans hf)
        · exact h3 (hs.symm.trans hf)
  · intro htarget
    rcases hcase with ⟨_, habort, _, hph⟩ | ⟨ho, _, _⟩
    · exact ⟨habort, hph⟩
    · subst ho
      exact absurd htarget ht

/-- Witness of C18: a node in servicing, not in maintenance, with a pending
setting whose spec was withdrawn: the transition requested is Abort, not Service,
although the plan is not empty and `unprepared` is set. -/
theorem Service_transition_discipline_witness :
    (sampleProvisioner (sampleNode Servicing false) true).getNode =
      .ok (sampleNode Servicing false) ∧
    ((sampleNode Servicing false).ProvisionState = Servicing ∨
        (sampleNode Servicing false).ProvisionState = ServiceWait →
      TargetAbort = TargetAbort ∧ TargetAbort ≠ TargetService) ∧
    (TargetAbort = TargetAbort →
      shouldAbortServicing (settingData false false true false) = true ∧
      ((sampleNode Servicing false).ProvisionState = ServiceFail ∨
        (sampleNode Servicing false).ProvisionState = Servicing ∨
        (sampleNode Servicing false).ProvisionState = ServiceWait)) :=
  Service_transition_discipline (sampleProvisioner (sampleNode Servicing false) true)
    (settingData false false true false) true true (sampleNode Servicing false)
    { Target := TargetAbort, ServiceSteps := [] } (by decide)

/-! ## Planning twice in a pass -/

/-- Claim C20: a pass that reaches the start procedure (phase Active with
`unprepared`, or a failed node that is restarted) plans twice, once in `Service`
and once in `startServicing`: the settings translation is called twice.  The
translation and the two delta helpers being functions of the desired data, the
second planning returns the plan that `Service` computed and checked: it does
not fail, `startServicing` returns what its success branch returns, and the step
list of any transition requested in the pass is that plan. -/
theorem Service_plans_twice (p : ironicProvisioner) (data : ServicingData)
    (unprepared restartOnFailure : Bool) (acc : AccessDetails) (node : Node)
    (steps : List ServiceStep)
    (hcap : p.availableFeatures.HasServicing = true)
    (hacc : p.bmcAccess = .ok acc) (hnode : p.getNode = .ok node)
    (hplan : (buildServiceSteps p acc data).1 = .ok steps)
    (hreach : node.ProvisionState = Active ∧ unprepared = true ∨
      node.ProvisionState = ServiceFail ∧ shouldAbortServicing data = false ∧
        restartOnFailure = true ∧ node.Maintenance = false) :
    Service p data unprepared restartOnFailure =
      serviceActive p acc node data true (readCalls data) ∧
    (Service p data unprepared restartOnFailure).calls.filter RemoteCall.isTranslation =
      [RemoteCall.buildBIOSSettings data.FirmwareConfig,
       RemoteCall.buildBIOSSettings data.FirmwareConfig] ∧
    (∀ e, (buildServiceSteps p acc data).1 ≠ .error e) ∧
    startServicing p acc node data =
      (if steps = [] then
        (false, operationComplete.1, none, [RemoteCall.buildBIOSSettings data.FirmwareConfig])
       else
        ((p.tryChangeNodeProvisionState node
            { Target := TargetService, ServiceSteps := steps }).1,
         (p.tryChangeNodeProvisionState node
            { Target := TargetService, ServiceSteps := steps }).2.1,
         (p.tryChangeNodeProvisionState node
            { Target := TargetService, ServiceSteps := steps }).2.2,
         [RemoteCall.buildBIOSSettings data.FirmwareConfig,
          RemoteCall.changeNodeProvisionState node
            { Target := TargetService, ServiceSteps := steps }])) ∧
    (∀ n opts, RemoteCall.changeNodeProvisionState n opts ∈
        (Service p data unprepared restartOnFailure).calls →
      opts = { Target := TargetService, ServiceSteps := steps }) := by
  have hsa : Service p data unprepared restartOnFailure =
      serviceActive p acc node data true (readCalls data) := by
    rw [Service_eq_dispatch p data unprepared restartOnFailure acc node steps hcap hacc hnode
      hplan]
    rcases hreach with ⟨ha, hu⟩ | ⟨hf, habort, hr, hm⟩
    · subst hu
      exact serviceDispatch_active p acc node data true restartOnFailure (readCalls data) ha
    · subst hr
      exact serviceDispatch_restart p acc node data unprepared (readCalls data) hf hm habort
  refine ⟨hsa, ?_, ?_, ?_, ?_⟩
  · rw [hsa]
    by_cases hne : steps = []
    · subst hne
      rw [serviceActive_empty p acc node data (readCalls data) hplan]
      simp [readCalls, RemoteCall.isTranslation]
    · rw [serviceActive_nonempty_calls p acc node data (readCalls data) steps hplan hne]
      simp [readCalls, RemoteCall.isTranslation]
  · intro e he
    rw [hplan] at he
    cases he
  · by_cases hne : steps = []
    · subst hne
      rw [startServicing_empty p acc node data hplan]
      rfl
    · rw [startServicing_nonempty p acc node data steps hplan hne]
      simp [hne]
  · intro n opts hmem
    rw [hsa] at hmem
    by_cases hne : steps = []
    · subst hne
      rw [serviceActive_empty p acc node data (readCalls data) hplan] at hmem
      simp [readCalls] at hmem
    · rw [serviceActive_nonempty_calls p acc node data (readCalls data) steps hplan hne]
        at hmem
      simp [readCalls] at hmem
      exact hmem.2

/-- Witness of C20: an active node, `unprepared = true` and one setting that
differs; two translation calls, then the Service transition with the plan. -/
theorem Service_plans_twice_witness :
    (Service (sampleProvisioner (sampleNode Active false) true)
      (settingData true false false false) true false).calls =
      [RemoteCall.bmcAccess, RemoteCall.getNode, RemoteCall.buildBIOSSettings none,
       RemoteCall.buildBIOSSettings none,
       RemoteCall.changeNodeProvisionState (sampleNode Active false)
         { Target := TargetService,
           ServiceSteps := [{ Interface := InterfaceBIOS, Step := "apply_configuration",
                              Args := [("settings",
                                [[("name", "ProcVirtualization"), ("value", "Enabled")]])] }] }] ∧
    (Service (sampleProvisioner (sampleNode Active false) true)
      (settingData true false false false) true false).calls.filter
        RemoteCall.isTranslation =
      [RemoteCall.buildBIOSSettings none, RemoteCall.buildBIOSSettings none] :=
  ⟨by decide,
   (Service_plans_twice (sampleProvisioner (sampleNode Active false) true)
    (settingData true false false false) true false sampleAccess (sampleNode Active false)
    [{ Interface := InterfaceBIOS, Step := "apply_configuration",
       Args := [("settings", [[("name", "ProcVirtualization"), ("value", "Enabled")]])] }]
    rfl rfl rfl rfl (Or.inl ⟨rfl, rfl⟩)).2.1⟩

end Ironic
